import Mathlib

/-!
Shallow embedding of `src/qasaplugqt.py` (class `QasaPlugQt`), the Kasa
smart-plug GUI.  Python dictionaries (`self.plugs`, `self.ui_elements`,
the discovery result) are modelled as insertion-ordered association
lists, device handles as records carrying both their cached attributes
and the live (physical) state an `update()` call would fetch, and the
Qt widgets as records of the fields the code actually sets.  Network
calls are modelled by outcome flags stored on the handle
(`update_ok`, `turn_on_ok`, `turn_off_ok`); the discovery call itself is
an `Except` parameter.  `print` output goes to `log`, `QMessageBox`
popups to `shown_errors`, and the per-address change notifications of a
reconciliation pass are collected in a trace of `Event`s.
-/

namespace QasaPlug

/-- Lexicographic comparison of character lists by code point, the
order Python's `sorted` uses on strings. -/
def charListLe : List Char → List Char → Bool
  | [], _ => true
  | _ :: _, [] => false
  | a :: as, b :: bs => if a < b then true else if b < a then false else charListLe as bs

/-- Python string comparison `a <= b` (lexicographic by code point). -/
def strLe (a b : String) : Bool := charListLe a.data b.data

/-- Python `s.startswith(pre)`. -/
def starts_with (s pre : String) : Bool := pre.data.isPrefixOf s.data

/-- `Settings.DISCOVERY_INTERVAL` (seconds). -/
def DISCOVERY_INTERVAL : Nat := 60

/-- `Settings.SHOW_IP_ADDRESS`. -/
def SHOW_IP_ADDRESS : Bool := true

/-- `Settings.AUTO_RECONNECT`. -/
def AUTO_RECONNECT : Bool := true

/-- `Settings.ENABLE_POWER_MONITORING`. -/
def ENABLE_POWER_MONITORING : Bool := true

/-- Readable attributes of a kasa device object: `alias`, `model`,
`is_plug`, `is_on`, `emeter_realtime`.  `emeter_realtime` is `none` when
the attribute is falsy (absent or empty dict); otherwise it carries the
optional value of the dict's power key (`.get` with default `0`). -/
structure DevAttrs where
  dalias : String
  model : String
  is_plug : Bool
  is_on : Bool
  emeter_realtime : Option (Option ℚ)
deriving DecidableEq

/-- A raw device handle as returned by `Discover.discover()`.  `cached`
holds the attributes currently readable on the object, `live` the state
a successful `update()` would fetch (the physical plug).  The `_ok`
flags say whether the corresponding network call succeeds; a failing
call raises an exception rendered as `fail_msg`. -/
structure RawDevice where
  cached : DevAttrs
  live : DevAttrs
  update_ok : Bool
  turn_on_ok : Bool
  turn_off_ok : Bool
  fail_msg : String
deriving DecidableEq

/-- `await dev.update()`: on success the cached attributes are refreshed
from the live device (the handle is mutated in place). -/
def dev_update (d : RawDevice) : Except String RawDevice :=
  if d.update_ok then Except.ok { d with cached := d.live }
  else Except.error d.fail_msg

/-- `await dev.turn_on()`: on success the physical switch goes on; the
cached attributes are refreshed only by a later `update()`. -/
def dev_turn_on (d : RawDevice) : Except String RawDevice :=
  if d.turn_on_ok then Except.ok { d with live := { d.live with is_on := true } }
  else Except.error d.fail_msg

/-- `await dev.turn_off()`: on success the physical switch goes off. -/
def dev_turn_off (d : RawDevice) : Except String RawDevice :=
  if d.turn_off_ok then Except.ok { d with live := { d.live with is_on := false } }
  else Except.error d.fail_msg

/-- Contents of the `power_lbl` widget: empty text, the literal
`"Offline"`, or a formatted power reading. -/
inductive PowerLabel where
  | blank
  | offline
  | reading (watts : ℚ)
deriving DecidableEq

/-- The two stylesheets applied to a device row: the normal one
(lines 145-152 and 219-226) and the greyed-out offline one
(lines 236-244). -/
inductive RowStyle where
  | active
  | offlineGrey
deriving DecidableEq

/-- The toggle button's stylesheet: green (device on), pink (device
off), or not yet styled (just created). -/
inductive BtnStyle where
  | green
  | pink
  | unstyled
deriving DecidableEq

/-- One entry of `self.ui_elements[addr]`: the widget references the
code stores plus the mutable fields it sets on them.  `widget_id`
models object identity of the row widget (a fresh id is allocated only
by `add_device_widget`), letting us state that an entry is not
re-created. -/
structure UiElement where
  widget_id : Nat
  name_lbl : String
  ip_lbl : String
  power_lbl : PowerLabel
  btn_text : String
  btn_checked : Bool
  btn_style : BtnStyle
  status_color : String
  widget_enabled : Bool
  widget_style : RowStyle
  is_online : Bool
deriving DecidableEq

/-- Insertion-ordered association-list lookup (Python `dict.get` /
`in`). -/
def lookupA {β : Type} : List (String × β) → String → Option β
  | [], _ => none
  | (k, v) :: rest, a => if k = a then some v else lookupA rest a

/-- Insertion-ordered association-list store (Python `dict[k] = v`):
replaces the value in place when the key exists, appends otherwise. -/
def updateA {β : Type} : List (String × β) → String → β → List (String × β)
  | [], a, v => [(a, v)]
  | (k, w) :: rest, a, v =>
    if k = a then (a, v) :: rest else (k, w) :: updateA rest a v

/-- Keys of an association list in insertion order (Python
`dict.keys()`). -/
def keysA {β : Type} (l : List (String × β)) : List String := l.map Prod.fst

/-- The whole mutable state of the `QasaPlugQt` widget. -/
structure AppState where
  plugs : List (String × RawDevice)
  ui_elements : List (String × UiElement)
  is_discovering : Bool
  status_label : String
  refresh_enabled : Bool
  next_widget_id : Nat
  log : List String
  shown_errors : List String
deriving DecidableEq

/-- State after `__init__` and `setup_window`. -/
def initial_state : AppState :=
  { plugs := []
    ui_elements := []
    is_discovering := false
    status_label := "Discovering devices..."
    refresh_enabled := true
    next_widget_id := 0
    log := []
    shown_errors := [] }

/-- The field updates `mark_device_offline` performs on a row: grey it
out, disable it, colour the indicator red and print `"Offline"` in the
power label. -/
def marked_el (el : UiElement) : UiElement :=
  { el with
    is_online := false
    widget_enabled := false
    widget_style := RowStyle.offlineGrey
    status_color := "#dc3545"
    power_lbl := PowerLabel.offline }

/-- `mark_device_offline` (lines 230-246): if the address has a UI row,
apply the offline field updates to it. -/
def mark_device_offline (s : AppState) (addr : String) : AppState :=
  match lookupA s.ui_elements addr with
  | none => s
  | some el =>
    { s with ui_elements := updateA s.ui_elements addr (marked_el el) }

/-- The power value the code reads: `dev.emeter_realtime.get('power', 0)`. -/
def emeter_power (e : Option (Option ℚ)) : ℚ :=
  match e with
  | some d => d.getD 0
  | none => 0

/-- The pure content of `update_device_widget_state` (lines 248-301):
the element's new field values as a function of the device attributes
read from the handle. -/
def widget_state_of (el : UiElement) (a : DevAttrs) : UiElement :=
  let el1 := { el with name_lbl := a.dalias }
  let el2 :=
    if ENABLE_POWER_MONITORING && starts_with a.model "HS110" && a.emeter_realtime.isSome then
      { el1 with power_lbl := PowerLabel.reading (emeter_power a.emeter_realtime) }
    else
      { el1 with power_lbl := PowerLabel.blank }
  if a.is_on then
    { el2 with
      btn_text := "Turn Off"
      btn_checked := true
      btn_style := BtnStyle.green
      status_color := "#28a745" }
  else
    { el2 with
      btn_text := "Turn On"
      btn_checked := false
      btn_style := BtnStyle.pink
      status_color := "#6c757d" }

/-- `update_device_widget_state` (lines 248-301).  The source indexes
`self.ui_elements[addr]` directly, so an absent key is an uncaught
`KeyError`, modelled as `none`. -/
def update_device_widget_state (s : AppState) (addr : String) (dev : RawDevice) :
    Option AppState :=
  match lookupA s.ui_elements addr with
  | none => none
  | some el =>
    some { s with ui_elements := updateA s.ui_elements addr (widget_state_of el dev.cached) }

/-- The row widget `add_device_widget` builds before setting its
initial state: a fresh identity, the device name, the IP caption, and
the unstyled button. -/
def fresh_el (n : Nat) (addr : String) (dev : RawDevice) : UiElement :=
  { widget_id := n
    name_lbl := dev.cached.dalias
    ip_lbl := if SHOW_IP_ADDRESS then "IP: " ++ addr else ""
    power_lbl := PowerLabel.blank
    btn_text := ""
    btn_checked := false
    btn_style := BtnStyle.unstyled
    status_color := "#999"
    widget_enabled := true
    widget_style := RowStyle.active
    is_online := true }

/-- `add_device_widget` (lines 138-210): skip non-plug devices; build a
fresh row widget with a new identity, register it, then set its initial
state.  The trailing `getD` is never taken: the element was just
inserted. -/
def add_device_widget (s : AppState) (addr : String) (dev : RawDevice) : AppState :=
  if !dev.cached.is_plug then s
  else
    let s1 := { s with
      ui_elements := updateA s.ui_elements addr (fresh_el s.next_widget_id addr dev)
      next_widget_id := s.next_widget_id + 1 }
    (update_device_widget_state s1 addr dev).getD s1

/-- The field updates `update_device_widget` applies to a row that was
offline: enabled again, normal stylesheet, online flag set. -/
def restore_online (el : UiElement) : UiElement :=
  if el.is_online then el
  else
    { el with
      is_online := true
      widget_enabled := true
      widget_style := RowStyle.active }

/-- `update_device_widget` (lines 212-228): if the address has a UI row,
re-enable it when it was offline, then refresh its displayed state. -/
def update_device_widget (s : AppState) (addr : String) (dev : RawDevice) : AppState :=
  match lookupA s.ui_elements addr with
  | none => s
  | some el =>
    let s1 :=
      if !el.is_online then
        { s with ui_elements :=
            (updateA s.ui_elements addr
              { el with
                is_online := true
                widget_enabled := true
                widget_style := RowStyle.active }) }
      else s
    (update_device_widget_state s1 addr dev).getD s1

/-- The refreshed handle a successful `update()` leaves behind. -/
def upd_dev (d : RawDevice) : RawDevice := { d with cached := d.live }

/-- Change notifications emitted by a reconciliation pass: an offline
mark or a per-device refresh (new or existing), keyed by address. -/
inductive Event where
  | offlineMark (addr : String)
  | refresh (addr : String)
deriving DecidableEq

/-- The body of the `for addr in sorted_ips` loop (lines 106-119),
iterating over the discovery result sorted by address.  Returns the
state, the accumulated change notifications, and the exception that
aborted the loop, if any.  In the new-device branch `update()` runs
before the store into `self.plugs`; in the existing-device branch the
store happens first, so a failing `update()` leaves the fresh
(un-refreshed) handle in the registry. -/
def process_devices (s : AppState) (evs : List Event) :
    List (String × RawDevice) → AppState × List Event × Option String
  | [] => (s, evs, none)
  | (addr, dev) :: rest =>
    match lookupA s.plugs addr with
    | none =>
      match dev_update dev with
      | Except.error e => (s, evs, some e)
      | Except.ok dev1 =>
        let s1 := { s with plugs := updateA s.plugs addr dev1 }
        let s2 := add_device_widget s1 addr dev1
        process_devices s2 (evs ++ [Event.refresh addr]) rest
    | some _ =>
      let s1 := { s with plugs := updateA s.plugs addr dev }
      match dev_update dev with
      | Except.error e => (s1, evs, some e)
      | Except.ok dev1 =>
        let s2 := { s1 with plugs := updateA s1.plugs addr dev1 }
        let s3 := update_device_widget s2 addr dev1
        process_devices s3 (evs ++ [Event.refresh addr]) rest

/-- Lines 86-88 of `discover_devices`: set the single-flight flag, the
status text, and disable the refresh button. -/
def pass_start (s : AppState) : AppState :=
  { s with
    is_discovering := true
    status_label := "Discovering..."
    refresh_enabled := false }

/-- `offline_ips = previous_ips - current_ips` (lines 95-99), iterated
here in registry insertion order (the source iterates a Python `set`,
whose order is unspecified). -/
def offline_list (s : AppState) (found : List (String × RawDevice)) : List String :=
  (keysA s.plugs).filter (fun a => ! (keysA found).contains a)

/-- The discovery result iterated sorted by address
(`sorted(found_devices.keys())`, line 104), with each address paired
with its device handle. -/
def sortedF (found : List (String × RawDevice)) : List (String × RawDevice) :=
  List.insertionSort (fun p q => strLe p.1 q.1 = true) found

/-- The state after the offline-marking loop (lines 100-101). -/
def marks_state (s : AppState) (found : List (String × RawDevice)) : AppState :=
  (offline_list s found).foldl mark_device_offline s

/-- The `try` block of `discover_devices` (lines 90-122): the discovery
call, the offline diff and marking, the sorted per-device loop, and on
success the status recount (line 121 counts only entries whose `is_plug`
attribute is true). -/
def try_discover (s : AppState) (net : Except String (List (String × RawDevice))) :
    AppState × List Event × Option String :=
  match net with
  | Except.error e => (s, [], some e)
  | Except.ok found =>
    match process_devices (marks_state s found)
        ((offline_list s found).map Event.offlineMark) (sortedF found) with
    | (s3, evs, none) =>
      ({ s3 with status_label := "Found " ++
          toString ((s3.plugs.filter (fun p => p.2.cached.is_plug)).length) ++
          " device(s)" }, evs, none)
    | (s3, evs, some e) => (s3, evs, some e)

/-- `discover_devices` (lines 81-131): single-flight guard, the `try`
body, the `except` handler (print, message box, status), and the
`finally` block (clear the flag, re-enable the refresh button).  `net`
is the outcome of `await Discover.discover()`. -/
def discover_devices (s : AppState) (net : Except String (List (String × RawDevice))) :
    AppState × List Event :=
  if s.is_discovering then (s, [])
  else
    match try_discover (pass_start s) net with
    | (s2, evs, none) =>
      ({ s2 with is_discovering := false, refresh_enabled := true }, evs)
    | (s2, evs, some e) =>
      ({ s2 with
        log := s2.log ++ ["Discovery error: " ++ e]
        shown_errors := s2.shown_errors ++ ["Discovery failed: " ++ e]
        status_label := "Discovery failed"
        is_discovering := false
        refresh_enabled := true }, evs)

/-- `manual_refresh` (lines 133-136): just awaits `discover_devices`. -/
def manual_refresh (s : AppState) (net : Except String (List (String × RawDevice))) :
    AppState × List Event :=
  discover_devices s net

/-- One iteration of `discover_loop` (lines 75-79): await
`discover_devices`, then sleep.  It is a total function — the pass never
raises out of `discover_devices` — so the `while True` loop never
terminates on error. -/
def discover_loop_iter (s : AppState) (net : Except String (List (String × RawDevice))) :
    AppState :=
  (discover_devices s net).1

/-- Calls made to the device-control collaborator by one
`handle_toggle` dispatch. -/
inductive DevCall where
  | turnOnCall
  | turnOffCall
  | updateCall
deriving DecidableEq

/-- The `except` handler of `handle_toggle` (lines 323-330): print and
show the error, revert the button to the opposite of the requested
state (signals blocked, so no re-dispatch happens). -/
def toggle_fail (s : AppState) (addr : String) (el : UiElement)
    (target_state : Bool) (e : String) : AppState :=
  let msg := "Error switching device: " ++ e
  { s with
    log := s.log ++ [msg]
    shown_errors := s.shown_errors ++ [msg]
    ui_elements := updateA s.ui_elements addr ({ el with btn_checked := ! target_state }) }

/-- `handle_toggle` (lines 303-330).  `none` models an uncaught
exception escaping the slot (the bare `self.ui_elements[addr]` index at
line 310 sits outside the `try`).  The second component records the
collaborator calls that were issued.  The handle is mutated in place in
Python, so every mutation is written back into `plugs`. -/
def handle_toggle (s : AppState) (addr : String) : Option (AppState × List DevCall) :=
  match lookupA s.plugs addr with
  | none => some (s, [])
  | some dev =>
    match lookupA s.ui_elements addr with
    | none => none
    | some el =>
      let target_state := el.btn_checked
      let calls0 := [if target_state then DevCall.turnOnCall else DevCall.turnOffCall]
      match (if target_state then dev_turn_on dev else dev_turn_off dev) with
      | Except.error e => some (toggle_fail s addr el target_state e, calls0)
      | Except.ok dev1 =>
        let s1 := { s with plugs := updateA s.plugs addr dev1 }
        match dev_update dev1 with
        | Except.error e =>
          some (toggle_fail s1 addr el target_state e, calls0 ++ [DevCall.updateCall])
        | Except.ok dev2 =>
          let s2 := { s1 with plugs := updateA s1.plugs addr dev2 }
          match update_device_widget_state s2 addr dev2 with
          | none => none
          | some s3 => some (s3, calls0 ++ [DevCall.updateCall])

/-! ### Association-list lemmas -/

theorem lookupA_updateA_self {β : Type} (l : List (String × β)) (k : String) (v : β) :
    lookupA (updateA l k v) k = some v := by
  induction l with
  | nil => simp [updateA, lookupA]
  | cons p rest ih =>
    obtain ⟨a, w⟩ := p
    by_cases h : a = k
    · simp [updateA, h, lookupA]
    · simp [updateA, h, lookupA, ih]

theorem lookupA_updateA_ne {β : Type} (l : List (String × β)) {k a : String} (v : β)
    (h : a ≠ k) : lookupA (updateA l k v) a = lookupA l a := by
  induction l with
  | nil => simp [updateA, lookupA, Ne.symm h]
  | cons p rest ih =>
    obtain ⟨b, w⟩ := p
    by_cases hb : b = k
    · subst hb
      simp [updateA, lookupA, Ne.symm h]
    · simp [updateA, hb, lookupA, ih]

theorem updateA_idem {β : Type} (l : List (String × β)) {k : String} {v : β}
    (h : lookupA l k = some v) : updateA l k v = l := by
  induction l with
  | nil => simp [lookupA] at h
  | cons p rest ih =>
    obtain ⟨a, w⟩ := p
    by_cases ha : a = k
    · subst ha
      simp [lookupA] at h
      simp [updateA, h]
    · simp [lookupA, ha] at h
      simp [updateA, ha, ih h]

theorem updateA_updateA {β : Type} (l : List (String × β)) (k : String) (v w : β) :
    updateA (updateA l k v) k w = updateA l k w := by
  induction l with
  | nil => simp [updateA]
  | cons p rest ih =>
    obtain ⟨a, u⟩ := p
    by_cases ha : a = k
    · simp [updateA, ha]
    · simp [updateA, ha, ih]

theorem lookupA_eq_none_iff {β : Type} (l : List (String × β)) (k : String) :
    lookupA l k = none ↔ k ∉ keysA l := by
  induction l with
  | nil => simp [lookupA, keysA]
  | cons p rest ih =>
    obtain ⟨a, w⟩ := p
    by_cases ha : a = k
    · subst ha
      simp [lookupA, keysA]
    · simp only [lookupA, keysA, List.map_cons, List.mem_cons]
      simp [ha, Ne.symm ha, ih, keysA]

theorem lookupA_isSome_iff {β : Type} (l : List (String × β)) (k : String) :
    (lookupA l k).isSome = true ↔ k ∈ keysA l := by
  induction l with
  | nil => simp [lookupA, keysA]
  | cons p rest ih =>
    obtain ⟨a, w⟩ := p
    by_cases ha : a = k
    · subst ha
      simp [lookupA, keysA]
    · simp only [lookupA, keysA, List.map_cons, List.mem_cons]
      simp [ha, Ne.symm ha, ih, keysA]

theorem lookupA_mem {β : Type} {l : List (String × β)} {k : String} {v : β}
    (h : lookupA l k = some v) : (k, v) ∈ l := by
  induction l with
  | nil => simp [lookupA] at h
  | cons p rest ih =>
    obtain ⟨a, w⟩ := p
    by_cases ha : a = k
    · subst ha
      simp [lookupA] at h
      simp [h]
    · simp [lookupA, ha] at h
      exact List.mem_cons_of_mem _ (ih h)

theorem lookupA_of_mem_nodup {β : Type} {l : List (String × β)} {k : String} {v : β}
    (hmem : (k, v) ∈ l) (hnd : (keysA l).Nodup) : lookupA l k = some v := by
  induction l with
  | nil => simp at hmem
  | cons p rest ih =>
    obtain ⟨a, w⟩ := p
    have hnd2 : a ∉ keysA rest ∧ (keysA rest).Nodup := by
      simp only [keysA, List.map_cons, List.nodup_cons] at hnd
      exact hnd
    rcases List.mem_cons.mp hmem with h | h
    · injection h with h1 h2
      subst h1
      subst h2
      simp [lookupA]
    · have hak : ¬ (a = k) := by
        intro he
        subst he
        exact hnd2.1 (List.mem_map_of_mem Prod.fst h)
      simp only [lookupA, hak, if_false]
      exact ih h hnd2.2

theorem keysA_updateA_of_mem {β : Type} (l : List (String × β)) {k : String} (v : β)
    (h : k ∈ keysA l) : keysA (updateA l k v) = keysA l := by
  induction l with
  | nil => simp [keysA] at h
  | cons p rest ih =>
    obtain ⟨a, w⟩ := p
    by_cases ha : a = k
    · simp [updateA, ha, keysA]
    · have h' : k = a ∨ k ∈ keysA rest := by
        simpa only [keysA, List.map_cons, List.mem_cons] using h
      have hk : k ∈ keysA rest := by
        rcases h' with h' | h'
        · exact absurd h'.symm ha
        · exact h'
      have ih2 := ih hk
      simp only [keysA] at ih2
      simp [updateA, ha, keysA, ih2]

theorem keysA_updateA_of_not_mem {β : Type} (l : List (String × β)) {k : String} (v : β)
    (h : k ∉ keysA l) : keysA (updateA l k v) = keysA l ++ [k] := by
  induction l with
  | nil => simp [updateA, keysA]
  | cons p rest ih =>
    obtain ⟨a, w⟩ := p
    have h1 : ¬ (a = k) := fun he => h (by simp [keysA, he])
    have h2 : k ∉ keysA rest := by
      intro hm
      exact h (by simp only [keysA, List.map_cons, List.mem_cons]; exact Or.inr hm)
    have ih2 := ih h2
    simp only [keysA] at ih2
    simp [updateA, h1, keysA, ih2]

/-! ### Small facts about the widget helpers -/

theorem marked_el_idem (el : UiElement) : marked_el (marked_el el) = marked_el el := rfl

theorem marked_el_is_online (el : UiElement) : (marked_el el).is_online = false := rfl

theorem marked_el_widget_id (el : UiElement) : (marked_el el).widget_id = el.widget_id := rfl

theorem widget_state_of_is_online (el : UiElement) (a : DevAttrs) :
    (widget_state_of el a).is_online = el.is_online := by
  unfold widget_state_of
  dsimp only
  split <;> split <;> rfl

theorem widget_state_of_widget_id (el : UiElement) (a : DevAttrs) :
    (widget_state_of el a).widget_id = el.widget_id := by
  unfold widget_state_of
  dsimp only
  split <;> split <;> rfl

theorem widget_state_of_name_lbl (el : UiElement) (a : DevAttrs) :
    (widget_state_of el a).name_lbl = a.dalias := by
  unfold widget_state_of
  dsimp only
  split <;> split <;> rfl

theorem restore_online_is_online (el : UiElement) : (restore_online el).is_online = true := by
  unfold restore_online
  split
  · assumption
  · rfl

theorem restore_online_widget_id (el : UiElement) :
    (restore_online el).widget_id = el.widget_id := by
  unfold restore_online
  split <;> rfl

theorem dev_update_of_ok {d : RawDevice} (h : d.update_ok = true) :
    dev_update d = Except.ok (upd_dev d) := by
  simp [dev_update, h, upd_dev]

theorem dev_update_of_fail {d : RawDevice} (h : d.update_ok = false) :
    dev_update d = Except.error d.fail_msg := by
  simp [dev_update, h]

/-! ### Canonical forms of the widget operations -/

theorem update_device_widget_state_eq (s : AppState) (addr : String) (dev : RawDevice) :
    update_device_widget_state s addr dev =
      (lookupA s.ui_elements addr).map (fun el =>
        { s with ui_elements := updateA s.ui_elements addr (widget_state_of el dev.cached) }) := by
  unfold update_device_widget_state
  cases lookupA s.ui_elements addr <;> rfl

theorem add_device_widget_eq (s : AppState) (addr : String) (dev : RawDevice) :
    add_device_widget s addr dev =
      if dev.cached.is_plug then
        { s with
          ui_elements := updateA s.ui_elements addr
            (widget_state_of (fresh_el s.next_widget_id addr dev) dev.cached)
          next_widget_id := s.next_widget_id + 1 }
      else s := by
  unfold add_device_widget
  cases hp : dev.cached.is_plug
  · simp
  · simp only [Bool.not_true, Bool.false_eq_true, if_neg, if_pos]
    simp [update_device_widget_state, lookupA_updateA_self, updateA_updateA]

theorem update_device_widget_eq (s : AppState) (addr : String) (dev : RawDevice) :
    update_device_widget s addr dev =
      match lookupA s.ui_elements addr with
      | none => s
      | some el =>
        { s with ui_elements :=
            updateA s.ui_elements addr (widget_state_of (restore_online el) dev.cached) } := by
  unfold update_device_widget
  cases hl : lookupA s.ui_elements addr with
  | none => rfl
  | some el =>
    cases ho : el.is_online
    · simp only [ho, Bool.not_false, if_pos]
      simp [update_device_widget_state, lookupA_updateA_self, updateA_updateA,
        restore_online, ho]
    · simp only [ho, Bool.not_true, Bool.false_eq_true, if_neg]
      simp [update_device_widget_state, hl, restore_online, ho]

/-! ### Frame: fields a reconciliation pass body never touches -/

/-- The state fields that the offline-marking and per-device phases of a
pass leave unchanged. -/
def pass_frame (s t : AppState) : Prop :=
  t.is_discovering = s.is_discovering ∧
  t.status_label = s.status_label ∧
  t.refresh_enabled = s.refresh_enabled ∧
  t.log = s.log ∧
  t.shown_errors = s.shown_errors

theorem pass_frame_refl (s : AppState) : pass_frame s s := ⟨rfl, rfl, rfl, rfl, rfl⟩

theorem pass_frame_trans {s t u : AppState} (h1 : pass_frame s t) (h2 : pass_frame t u) :
    pass_frame s u := by
  obtain ⟨a1, b1, c1, d1, e1⟩ := h1
  obtain ⟨a2, b2, c2, d2, e2⟩ := h2
  exact ⟨a2.trans a1, b2.trans b1, c2.trans c1, d2.trans d1, e2.trans e1⟩

theorem mark_device_offline_frame (s : AppState) (a : String) :
    pass_frame s (mark_device_offline s a) ∧ (mark_device_offline s a).plugs = s.plugs ∧
      (mark_device_offline s a).next_widget_id = s.next_widget_id := by
  unfold mark_device_offline
  cases lookupA s.ui_elements a <;> exact ⟨⟨rfl, rfl, rfl, rfl, rfl⟩, rfl, rfl⟩

theorem mark_device_offline_ui_ne (s : AppState) {a b : String} (h : a ≠ b) :
    lookupA (mark_device_offline s b).ui_elements a = lookupA s.ui_elements a := by
  unfold mark_device_offline
  cases hl : lookupA s.ui_elements b
  · rfl
  · simp [lookupA_updateA_ne _ _ h]

theorem mark_device_offline_ui_self {s : AppState} {a : String} {el : UiElement}
    (h : lookupA s.ui_elements a = some el) :
    lookupA (mark_device_offline s a).ui_elements a = some (marked_el el) := by
  unfold mark_device_offline
  simp [h, lookupA_updateA_self]

theorem mark_device_offline_ui_none {s : AppState} {a : String}
    (h : lookupA s.ui_elements a = none) :
    lookupA (mark_device_offline s a).ui_elements a = none := by
  unfold mark_device_offline
  simp [h]

theorem foldl_mark_plugs (L : List String) (s : AppState) :
    (L.foldl mark_device_offline s).plugs = s.plugs := by
  induction L generalizing s with
  | nil => rfl
  | cons b L ih => simp [List.foldl_cons, ih, (mark_device_offline_frame s b).2.1]

theorem foldl_mark_next_widget_id (L : List String) (s : AppState) :
    (L.foldl mark_device_offline s).next_widget_id = s.next_widget_id := by
  induction L generalizing s with
  | nil => rfl
  | cons b L ih => simp [List.foldl_cons, ih, (mark_device_offline_frame s b).2.2]

theorem foldl_mark_frame (L : List String) (s : AppState) :
    pass_frame s (L.foldl mark_device_offline s) := by
  induction L generalizing s with
  | nil => exact pass_frame_refl s
  | cons b L ih =>
    exact pass_frame_trans (mark_device_offline_frame s b).1 (ih (mark_device_offline s b))

theorem foldl_mark_ui_of_not_mem (L : List String) (s : AppState) {a : String}
    (ha : a ∉ L) :
    lookupA (L.foldl mark_device_offline s).ui_elements a = lookupA s.ui_elements a := by
  induction L generalizing s with
  | nil => rfl
  | cons b L ih =>
    have hab : a ≠ b := fun he => ha (he ▸ List.mem_cons_self b L)
    have haL : a ∉ L := fun hm => ha (List.mem_cons_of_mem b hm)
    simp [List.foldl_cons, ih _ haL, mark_device_offline_ui_ne s hab]

theorem foldl_mark_ui_of_none (L : List String) (s : AppState) {a : String}
    (h : lookupA s.ui_elements a = none) :
    lookupA (L.foldl mark_device_offline s).ui_elements a = none := by
  induction L generalizing s with
  | nil => exact h
  | cons b L ih =>
    by_cases hab : a = b
    · subst hab
      exact ih _ (mark_device_offline_ui_none h)
    · exact ih _ ((mark_device_offline_ui_ne s hab).trans h)

theorem foldl_mark_ui_of_mem (L : List String) (s : AppState) {a : String} {el : UiElement}
    (ha : a ∈ L) (hel : lookupA s.ui_elements a = some el) :
    lookupA (L.foldl mark_device_offline s).ui_elements a = some (marked_el el) := by
  induction L generalizing s el with
  | nil => cases ha
  | cons b L ih =>
    by_cases hab : a = b
    · subst hab
      have h1 : lookupA (mark_device_offline s a).ui_elements a = some (marked_el el) :=
        mark_device_offline_ui_self hel
      by_cases hmem : a ∈ L
      · simpa [marked_el_idem] using ih _ hmem h1
      · simpa [List.foldl_cons, foldl_mark_ui_of_not_mem L _ hmem] using h1
    · have hmem : a ∈ L := by
        rcases List.mem_cons.mp ha with h | h
        · exact absurd h hab
        · exact h
      exact ih _ hmem ((mark_device_offline_ui_ne s hab).trans hel)

/-! ### The lexicographic string order used by the sorted loop -/

theorem charListLe_total (as bs : List Char) :
    charListLe as bs = true ∨ charListLe bs as = true := by
  induction as generalizing bs with
  | nil => exact Or.inl rfl
  | cons a as ih =>
    cases bs with
    | nil => exact Or.inr rfl
    | cons b bs =>
      rcases lt_trichotomy a b with h | h | h
      · exact Or.inl (by simp [charListLe, h])
      · subst h
        rcases ih bs with h2 | h2
        · exact Or.inl (by simp [charListLe, lt_irrefl, h2])
        · exact Or.inr (by simp [charListLe, lt_irrefl, h2])
      · exact Or.inr (by simp [charListLe, h])

theorem charListLe_trans {as bs cs : List Char}
    (h1 : charListLe as bs = true) (h2 : charListLe bs cs = true) :
    charListLe as cs = true := by
  induction as generalizing bs cs with
  | nil => rfl
  | cons a as ih =>
    cases bs with
    | nil => simp [charListLe] at h1
    | cons b bs =>
      cases cs with
      | nil => simp [charListLe] at h2
      | cons c cs =>
        rcases lt_trichotomy a b with hab | hab | hab
        · rcases lt_trichotomy b c with hbc | hbc | hbc
          · simp [charListLe, lt_trans hab hbc]
          · subst hbc
            simp [charListLe, hab]
          · simp [charListLe, hbc, asymm hbc] at h2
        · subst hab
          rcases lt_trichotomy a c with hac | hac | hac
          · simp [charListLe, hac]
          · subst hac
            simp [charListLe, lt_irrefl] at h1 h2 ⊢
            exact ih h1 h2
          · simp [charListLe, lt_irrefl] at h1
            simp [charListLe, hac, asymm hac] at h2
        · simp [charListLe, hab, asymm hab] at h1

theorem strLe_total (a b : String) : strLe a b = true ∨ strLe b a = true :=
  charListLe_total a.data b.data

theorem strLe_trans {a b c : String} (h1 : strLe a b = true) (h2 : strLe b c = true) :
    strLe a c = true :=
  charListLe_trans h1 h2

instance pairLe_total : IsTotal (String × RawDevice) (fun p q => strLe p.1 q.1 = true) :=
  ⟨fun p q => strLe_total p.1 q.1⟩

instance pairLe_trans : IsTrans (String × RawDevice) (fun p q => strLe p.1 q.1 = true) :=
  ⟨fun _ _ _ h1 h2 => strLe_trans h1 h2⟩

/-! ### Projections of the widget operations -/

theorem add_device_widget_plugs (s : AppState) (a : String) (d : RawDevice) :
    (add_device_widget s a d).plugs = s.plugs := by
  rw [add_device_widget_eq]
  split <;> rfl

theorem add_device_widget_frame (s : AppState) (a : String) (d : RawDevice) :
    pass_frame s (add_device_widget s a d) := by
  rw [add_device_widget_eq]
  split <;> exact ⟨rfl, rfl, rfl, rfl, rfl⟩

theorem add_device_widget_ui_ne (s : AppState) {a b : String} (d : RawDevice)
    (h : b ≠ a) :
    lookupA (add_device_widget s a d).ui_elements b = lookupA s.ui_elements b := by
  rw [add_device_widget_eq]
  split
  · simp [lookupA_updateA_ne _ _ h]
  · rfl

theorem update_device_widget_plugs (s : AppState) (a : String) (d : RawDevice) :
    (update_device_widget s a d).plugs = s.plugs := by
  rw [update_device_widget_eq]
  cases lookupA s.ui_elements a <;> rfl

theorem update_device_widget_frame (s : AppState) (a : String) (d : RawDevice) :
    pass_frame s (update_device_widget s a d) := by
  rw [update_device_widget_eq]
  cases lookupA s.ui_elements a <;> exact ⟨rfl, rfl, rfl, rfl, rfl⟩

theorem update_device_widget_next_widget_id (s : AppState) (a : String) (d : RawDevice) :
    (update_device_widget s a d).next_widget_id = s.next_widget_id := by
  rw [update_device_widget_eq]
  cases lookupA s.ui_elements a <;> rfl

theorem update_device_widget_ui_ne (s : AppState) {a b : String} (d : RawDevice)
    (h : b ≠ a) :
    lookupA (update_device_widget s a d).ui_elements b = lookupA s.ui_elements b := by
  rw [update_device_widget_eq]
  cases lookupA s.ui_elements a
  · rfl
  · simp [lookupA_updateA_ne _ _ h]

theorem update_device_widget_ui_self (s : AppState) {a : String} (d : RawDevice) :
    lookupA (update_device_widget s a d).ui_elements a =
      (lookupA s.ui_elements a).map (fun el => widget_state_of (restore_online el) d.cached) := by
  rw [update_device_widget_eq]
  cases h : lookupA s.ui_elements a
  · simp [h]
  · simp [lookupA_updateA_self]

/-! ### The per-device loop: frame, untouched addresses, success path -/

theorem process_devices_frame (l : List (String × RawDevice)) (s : AppState)
    (evs : List Event) : pass_frame s (process_devices s evs l).1 := by
  induction l generalizing s evs with
  | nil => exact pass_frame_refl s
  | cons p rest ih =>
    obtain ⟨addr, dev⟩ := p
    cases hl : lookupA s.plugs addr with
    | none =>
      cases hu : dev_update dev with
      | error e =>
        simp only [process_devices, hl, hu]
        exact pass_frame_refl s
      | ok dev1 =>
        simp only [process_devices, hl, hu]
        refine pass_frame_trans ?_ (ih _ _)
        exact pass_frame_trans (⟨rfl, rfl, rfl, rfl, rfl⟩ :
          pass_frame s { s with plugs := updateA s.plugs addr dev1 })
          (add_device_widget_frame _ addr dev1)
    | some w =>
      cases hu : dev_update dev with
      | error e =>
        simp only [process_devices, hl, hu]
        exact ⟨rfl, rfl, rfl, rfl, rfl⟩
      | ok dev1 =>
        simp only [process_devices, hl, hu]
        refine pass_frame_trans ?_ (ih _ _)
        refine pass_frame_trans (⟨rfl, rfl, rfl, rfl, rfl⟩ :
          pass_frame s { s with plugs := updateA (updateA s.plugs addr dev) addr dev1 }) ?_
        exact update_device_widget_frame _ addr dev1

theorem process_devices_untouched (l : List (String × RawDevice)) (s : AppState)
    (evs : List Event) {a : String} (ha : a ∉ keysA l) :
    lookupA (process_devices s evs l).1.plugs a = lookupA s.plugs a ∧
    lookupA (process_devices s evs l).1.ui_elements a = lookupA s.ui_elements a := by
  induction l generalizing s evs with
  | nil => exact ⟨rfl, rfl⟩
  | cons p rest ih =>
    obtain ⟨addr, dev⟩ := p
    have hne : a ≠ addr := by
      intro he
      exact ha (by simp [keysA, he])
    have harest : a ∉ keysA rest := by
      intro hm
      refine ha ?_
      simp only [keysA, List.map_cons, List.mem_cons]
      exact Or.inr hm
    cases hl : lookupA s.plugs addr with
    | none =>
      cases hu : dev_update dev with
      | error e =>
        simp only [process_devices, hl, hu]
        exact ⟨trivial, trivial⟩
      | ok dev1 =>
        simp only [process_devices, hl, hu]
        obtain ⟨i1, i2⟩ := ih _ (evs ++ [Event.refresh addr]) harest
        refine ⟨?_, ?_⟩
        · rw [i1, add_device_widget_plugs]
          exact lookupA_updateA_ne _ _ hne
        · rw [i2]
          exact add_device_widget_ui_ne _ _ hne
    | some w =>
      cases hu : dev_update dev with
      | error e =>
        simp only [process_devices, hl, hu]
        exact ⟨lookupA_updateA_ne _ _ hne, trivial⟩

      | ok dev1 =>
        simp only [process_devices, hl, hu]
        obtain ⟨i1, i2⟩ := ih _ (evs ++ [Event.refresh addr]) harest
        refine ⟨?_, ?_⟩
        · rw [i1, update_device_widget_plugs]
          rw [updateA_updateA]
          exact lookupA_updateA_ne _ _ hne
        · rw [i2]
          exact update_device_widget_ui_ne _ _ hne

theorem process_devices_ok (l : List (String × RawDevice)) (s : AppState)
    (evs : List Event) (hok : ∀ p ∈ l, p.2.update_ok = true) :
    (process_devices s evs l).2.2 = none ∧
    (process_devices s evs l).2.1 = evs ++ (keysA l).map Event.refresh := by
  induction l generalizing s evs with
  | nil => simp [process_devices, keysA]
  | cons p rest ih =>
    obtain ⟨addr, dev⟩ := p
    have hdev : dev.update_ok = true := hok _ (List.mem_cons_self _ _)
    have hrest : ∀ p ∈ rest, p.2.update_ok = true :=
      fun q hq => hok q (List.mem_cons_of_mem _ hq)
    cases hl : lookupA s.plugs addr with
    | none =>
      simp only [process_devices, hl, dev_update_of_ok hdev]
      obtain ⟨i1, i2⟩ := ih _ (evs ++ [Event.refresh addr]) hrest
      refine ⟨i1, ?_⟩
      rw [i2]
      simp [keysA]
    | some w =>
      simp only [process_devices, hl, dev_update_of_ok hdev]
      obtain ⟨i1, i2⟩ := ih _ (evs ++ [Event.refresh addr]) hrest
      refine ⟨i1, ?_⟩
      rw [i2]
      simp [keysA]

/-! ### The per-device loop: effect on each processed address -/

theorem process_devices_existing {a : String} {d w : RawDevice} :
    ∀ (l : List (String × RawDevice)) (s : AppState) (evs : List Event),
      (keysA l).Nodup → (∀ p ∈ l, p.2.update_ok = true) → (a, d) ∈ l →
      lookupA s.plugs a = some w →
      lookupA (process_devices s evs l).1.plugs a = some (upd_dev d) ∧
      lookupA (process_devices s evs l).1.ui_elements a =
        (lookupA s.ui_elements a).map
          (fun el => widget_state_of (restore_online el) (upd_dev d).cached) := by
  intro l
  induction l with
  | nil =>
    intro s evs _ _ hmem _
    cases hmem
  | cons p rest ih =>
    intro s evs hnd hok hmem hw
    obtain ⟨addr, dev⟩ := p
    have hnd2 : addr ∉ keysA rest ∧ (keysA rest).Nodup := by
      simp only [keysA, List.map_cons, List.nodup_cons] at hnd
      exact hnd
    have hok2 : ∀ p ∈ rest, p.2.update_ok = true :=
      fun q hq => hok q (List.mem_cons_of_mem _ hq)
    have hdev : dev.update_ok = true := hok _ (List.mem_cons_self _ _)
    rcases List.mem_cons.mp hmem with he | hmem2
    · injection he with h1 h2
      subst h1
      subst h2
      have harest : a ∉ keysA rest := hnd2.1
      simp only [process_devices, hw, dev_update_of_ok hdev]
      obtain ⟨u1, u2⟩ := process_devices_untouched rest _ (evs ++ [Event.refresh a]) harest
      refine ⟨?_, ?_⟩
      · rw [u1, update_device_widget_plugs]
        rw [updateA_updateA]
        exact lookupA_updateA_self _ _ _
      · rw [u2, update_device_widget_ui_self]
    · have hamem : a ∈ keysA rest := List.mem_map_of_mem Prod.fst hmem2
      have hne : a ≠ addr := fun he => hnd2.1 (he ▸ hamem)
      cases hl : lookupA s.plugs addr with
      | none =>
        cases hu : dev_update dev with
        | error e =>
          rw [dev_update_of_ok hdev] at hu
          cases hu
        | ok dev1 =>
          simp only [process_devices, hl, hu]
          have hw2 : lookupA (add_device_widget
              { s with plugs := updateA s.plugs addr dev1 } addr dev1).plugs a = some w := by
            rw [add_device_widget_plugs]
            simpa [lookupA_updateA_ne _ _ hne] using hw
          obtain ⟨r1, r2⟩ := ih _ (evs ++ [Event.refresh addr]) hnd2.2 hok2 hmem2 hw2
          refine ⟨r1, ?_⟩
          rw [r2, add_device_widget_ui_ne _ _ hne]
      | some v =>
        cases hu : dev_update dev with
        | error e =>
          rw [dev_update_of_ok hdev] at hu
          cases hu
        | ok dev1 =>
          simp only [process_devices, hl, hu]
          have hw2 : lookupA (update_device_widget
              { s with plugs := updateA (updateA s.plugs addr dev) addr dev1 }
              addr dev1).plugs a = some w := by
            rw [update_device_widget_plugs]
            dsimp only
            rw [updateA_updateA]
            simpa [lookupA_updateA_ne _ _ hne] using hw
          obtain ⟨r1, r2⟩ := ih _ (evs ++ [Event.refresh addr]) hnd2.2 hok2 hmem2 hw2
          refine ⟨r1, ?_⟩
          rw [r2, update_device_widget_ui_ne _ _ hne]

theorem process_devices_new {a : String} {d : RawDevice} :
    ∀ (l : List (String × RawDevice)) (s : AppState) (evs : List Event),
      (keysA l).Nodup → (∀ p ∈ l, p.2.update_ok = true) → (a, d) ∈ l →
      lookupA s.plugs a = none →
      lookupA (process_devices s evs l).1.plugs a = some (upd_dev d) ∧
      (if d.live.is_plug then
        ∃ n, lookupA (process_devices s evs l).1.ui_elements a =
          some (widget_state_of (fresh_el n a (upd_dev d)) (upd_dev d).cached)
      else
        lookupA (process_devices s evs l).1.ui_elements a = lookupA s.ui_elements a) := by
  intro l
  induction l with
  | nil =>
    intro s evs _ _ hmem _
    cases hmem
  | cons p rest ih =>
    intro s evs hnd hok hmem hw
    obtain ⟨addr, dev⟩ := p
    have hnd2 : addr ∉ keysA rest ∧ (keysA rest).Nodup := by
      simp only [keysA, List.map_cons, List.nodup_cons] at hnd
      exact hnd
    have hok2 : ∀ p ∈ rest, p.2.update_ok = true :=
      fun q hq => hok q (List.mem_cons_of_mem _ hq)
    have hdev : dev.update_ok = true := hok _ (List.mem_cons_self _ _)
    rcases List.mem_cons.mp hmem with he | hmem2
    · injection he with h1 h2
      subst h1
      subst h2
      have harest : a ∉ keysA rest := hnd2.1
      simp only [process_devices, hw, dev_update_of_ok hdev]
      obtain ⟨u1, u2⟩ := process_devices_untouched rest _ (evs ++ [Event.refresh a]) harest
      have hplug : (upd_dev d).cached.is_plug = d.live.is_plug := rfl
      refine ⟨?_, ?_⟩
      · rw [u1, add_device_widget_plugs]
        exact lookupA_updateA_self _ _ _
      · by_cases hp : d.live.is_plug = true
        · rw [if_pos hp]
          refine ⟨s.next_widget_id, ?_⟩
          rw [u2, add_device_widget_eq]
          simp [hplug, hp, lookupA_updateA_self]
        · have hpf : d.live.is_plug = false := by
            revert hp
            cases d.live.is_plug <;> simp
          rw [if_neg hp, u2, add_device_widget_eq]
          simp [hplug, hpf]
    · have hamem : a ∈ keysA rest := List.mem_map_of_mem Prod.fst hmem2
      have hne : a ≠ addr := fun he => hnd2.1 (he ▸ hamem)
      cases hl : lookupA s.plugs addr with
      | none =>
        cases hu : dev_update dev with
        | error e =>
          rw [dev_update_of_ok hdev] at hu
          cases hu
        | ok dev1 =>
          simp only [process_devices, hl, hu]
          have hw2 : lookupA (add_device_widget
              { s with plugs := updateA s.plugs addr dev1 } addr dev1).plugs a = none := by
            rw [add_device_widget_plugs]
            simpa [lookupA_updateA_ne _ _ hne] using hw
          obtain ⟨r1, r2⟩ := ih _ (evs ++ [Event.refresh addr]) hnd2.2 hok2 hmem2 hw2
          refine ⟨r1, ?_⟩
          by_cases hp : d.live.is_plug = true
          · rw [if_pos hp] at r2 ⊢
            exact r2
          · rw [if_neg hp] at r2 ⊢
            rw [r2, add_device_widget_ui_ne _ _ hne]
      | some v =>
        cases hu : dev_update dev with
        | error e =>
          rw [dev_update_of_ok hdev] at hu
          cases hu
        | ok dev1 =>
          simp only [process_devices, hl, hu]
          have hw2 : lookupA (update_device_widget
              { s with plugs := updateA (updateA s.plugs addr dev) addr dev1 }
              addr dev1).plugs a = none := by
            rw [update_device_widget_plugs]
            dsimp only
            rw [updateA_updateA]
            simpa [lookupA_updateA_ne _ _ hne] using hw
          obtain ⟨r1, r2⟩ := ih _ (evs ++ [Event.refresh addr]) hnd2.2 hok2 hmem2 hw2
          refine ⟨r1, ?_⟩
          by_cases hp : d.live.is_plug = true
          · rw [if_pos hp] at r2 ⊢
            exact r2
          · rw [if_neg hp] at r2 ⊢
            rw [r2, update_device_widget_ui_ne _ _ hne]

/-! ### The per-device loop: effect on the key sets -/

theorem process_devices_keys :
    ∀ (l : List (String × RawDevice)) (s : AppState) (evs : List Event),
      (keysA l).Nodup → (∀ p ∈ l, p.2.update_ok = true) →
      keysA (process_devices s evs l).1.plugs =
        keysA s.plugs ++
          (l.filter (fun p => !(lookupA s.plugs p.1).isSome)).map Prod.fst := by
  intro l
  induction l with
  | nil =>
    intro s evs _ _
    simp [process_devices]
  | cons p rest ih =>
    intro s evs hnd hok
    obtain ⟨addr, dev⟩ := p
    have hnd2 : addr ∉ keysA rest ∧ (keysA rest).Nodup := by
      simp only [keysA, List.map_cons, List.nodup_cons] at hnd
      exact hnd
    have hok2 : ∀ p ∈ rest, p.2.update_ok = true :=
      fun q hq => hok q (List.mem_cons_of_mem _ hq)
    have hdev : dev.update_ok = true := hok _ (List.mem_cons_self _ _)
    cases hl : lookupA s.plugs addr with
    | none =>
      simp only [process_devices, hl, dev_update_of_ok hdev]
      have hmem : addr ∉ keysA s.plugs := (lookupA_eq_none_iff s.plugs addr).mp hl
      have hkeys : keysA (add_device_widget
          { s with plugs := updateA s.plugs addr (upd_dev dev) } addr (upd_dev dev)).plugs =
          keysA s.plugs ++ [addr] := by
        rw [add_device_widget_plugs]
        exact keysA_updateA_of_not_mem _ _ hmem
      have hsame : ∀ q ∈ rest,
          (!(lookupA (add_device_widget
            { s with plugs := updateA s.plugs addr (upd_dev dev) }
            addr (upd_dev dev)).plugs q.1).isSome) =
          (!(lookupA s.plugs q.1).isSome) := by
        intro q hq
        have hqa : q.1 ≠ addr := by
          intro he
          exact hnd2.1 (he ▸ List.mem_map_of_mem Prod.fst hq)
        rw [add_device_widget_plugs]
        dsimp only
        rw [lookupA_updateA_ne _ _ hqa]
      rw [ih _ (evs ++ [Event.refresh addr]) hnd2.2 hok2]
      rw [List.filter_congr hsame, hkeys]
      simp [hl, keysA]
    | some w =>
      simp only [process_devices, hl, dev_update_of_ok hdev]
      have hmem : addr ∈ keysA s.plugs :=
        (lookupA_isSome_iff s.plugs addr).mp (by simp [hl])
      have hkeys : keysA (update_device_widget
          { s with plugs := updateA (updateA s.plugs addr dev) addr (upd_dev dev) }
          addr (upd_dev dev)).plugs = keysA s.plugs := by
        rw [update_device_widget_plugs]
        dsimp only
        rw [updateA_updateA]
        exact keysA_updateA_of_mem _ _ hmem
      have hsame : ∀ q ∈ rest,
          (!(lookupA (update_device_widget
            { s with plugs := updateA (updateA s.plugs addr dev) addr (upd_dev dev) }
            addr (upd_dev dev)).plugs q.1).isSome) =
          (!(lookupA s.plugs q.1).isSome) := by
        intro q hq
        rw [update_device_widget_plugs]
        dsimp only
        rw [updateA_updateA]
        by_cases hqa : q.1 = addr
        · rw [hqa, lookupA_updateA_self, hl]
          rfl
        · rw [lookupA_updateA_ne _ _ hqa]
      rw [ih _ (evs ++ [Event.refresh addr]) hnd2.2 hok2]
      rw [List.filter_congr hsame, hkeys]
      simp [hl, keysA]

theorem process_devices_ui_keys :
    ∀ (l : List (String × RawDevice)) (s : AppState) (evs : List Event),
      (keysA l).Nodup → (∀ p ∈ l, p.2.update_ok = true) →
      (∀ p ∈ l, lookupA s.plugs p.1 = none ∧ lookupA s.ui_elements p.1 = none) →
      keysA (process_devices s evs l).1.ui_elements =
        keysA s.ui_elements ++
          (l.filter (fun p => p.2.live.is_plug)).map Prod.fst := by
  intro l
  induction l with
  | nil =>
    intro s evs _ _ _
    simp [process_devices]
  | cons p rest ih =>
    intro s evs hnd hok hnew
    obtain ⟨addr, dev⟩ := p
    have hnd2 : addr ∉ keysA rest ∧ (keysA rest).Nodup := by
      simp only [keysA, List.map_cons, List.nodup_cons] at hnd
      exact hnd
    have hok2 : ∀ p ∈ rest, p.2.update_ok = true :=
      fun q hq => hok q (List.mem_cons_of_mem _ hq)
    have hdev : dev.update_ok = true := hok _ (List.mem_cons_self _ _)
    have hphead := hnew _ (List.mem_cons_self _ _)
    simp only [process_devices, hphead.1, dev_update_of_ok hdev]
    have hplug : (upd_dev dev).cached.is_plug = dev.live.is_plug := rfl
    have hnew2 : ∀ p ∈ rest,
        lookupA (add_device_widget
          { s with plugs := updateA s.plugs addr (upd_dev dev) }
          addr (upd_dev dev)).plugs p.1 = none ∧
        lookupA (add_device_widget
          { s with plugs := updateA s.plugs addr (upd_dev dev) }
          addr (upd_dev dev)).ui_elements p.1 = none := by
      intro q hq
      have hqa : q.1 ≠ addr := by
        intro he
        exact hnd2.1 (he ▸ List.mem_map_of_mem Prod.fst hq)
      constructor
      · rw [add_device_widget_plugs]
        dsimp only
        rw [lookupA_updateA_ne _ _ hqa]
        exact (hnew q (List.mem_cons_of_mem _ hq)).1
      · rw [add_device_widget_ui_ne _ _ hqa]
        exact (hnew q (List.mem_cons_of_mem _ hq)).2
    rw [ih _ (evs ++ [Event.refresh addr]) hnd2.2 hok2 hnew2]
    have hui : keysA (add_device_widget
        { s with plugs := updateA s.plugs addr (upd_dev dev) }
        addr (upd_dev dev)).ui_elements =
        keysA s.ui_elements ++ (if dev.live.is_plug then [addr] else []) := by
      rw [add_device_widget_eq]
      by_cases hp : (upd_dev dev).cached.is_plug = true
      · rw [if_pos hp]
        dsimp only
        rw [keysA_updateA_of_not_mem _ _ ((lookupA_eq_none_iff _ _).mp hphead.2)]
        rw [if_pos (hplug ▸ hp)]
      · rw [if_neg hp]
        have hpf : dev.live.is_plug = false := by
          rw [← hplug]
          revert hp
          cases (upd_dev dev).cached.is_plug <;> simp
        rw [hpf]
        simp
    rw [hui]
    by_cases hp : dev.live.is_plug = true
    · simp [hp, keysA]
    · have hpf : dev.live.is_plug = false := by
        revert hp
        cases dev.live.is_plug <;> simp
      simp [hpf, keysA]

/-! ### Whole-pass decomposition -/

/-- The state/events/error triple of the pass body (offline marks, then
the sorted per-device loop) as run by `discover_devices` from a
non-discovering state `s`. -/
def pass_result (s : AppState) (found : List (String × RawDevice)) :
    AppState × List Event × Option String :=
  process_devices (marks_state (pass_start s) found)
    ((offline_list (pass_start s) found).map Event.offlineMark) (sortedF found)

theorem marks_state_plugs (s : AppState) (found : List (String × RawDevice)) :
    (marks_state s found).plugs = s.plugs :=
  foldl_mark_plugs _ _

theorem mem_sortedF {found : List (String × RawDevice)} {p : String × RawDevice} :
    p ∈ sortedF found ↔ p ∈ found := by
  unfold sortedF
  exact List.mem_insertionSort _

theorem keysA_sortedF_nodup {found : List (String × RawDevice)}
    (hnd : (keysA found).Nodup) : (keysA (sortedF found)).Nodup := by
  have hperm : List.Perm (keysA (sortedF found)) (keysA found) :=
    List.Perm.map Prod.fst (List.perm_insertionSort _ found)
  exact hperm.nodup_iff.mpr hnd

theorem discover_devices_guard (s : AppState)
    (net : Except String (List (String × RawDevice))) (h : s.is_discovering = true) :
    discover_devices s net = (s, []) := by
  unfold discover_devices
  rw [if_pos h]

theorem discover_devices_error_eq (s : AppState) (e : String)
    (hflag : s.is_discovering = false) :
    discover_devices s (Except.error e) =
      ({ s with
          status_label := "Discovery failed"
          log := s.log ++ ["Discovery error: " ++ e]
          shown_errors := s.shown_errors ++ ["Discovery failed: " ++ e]
          is_discovering := false
          refresh_enabled := true }, []) := by
  unfold discover_devices try_discover
  rw [if_neg (by simp [hflag])]
  rfl

theorem discover_devices_ok_eq (s : AppState) (found : List (String × RawDevice))
    (hflag : s.is_discovering = false)
    (hok : ∀ p ∈ found, p.2.update_ok = true) :
    discover_devices s (Except.ok found) =
      ({ (pass_result s found).1 with
          status_label := "Found " ++
            toString (((pass_result s found).1.plugs.filter
              (fun p => p.2.cached.is_plug)).length) ++ " device(s)"
          is_discovering := false
          refresh_enabled := true },
        (pass_result s found).2.1) := by
  have hoks : ∀ p ∈ sortedF found, p.2.update_ok = true := by
    intro p hp
    exact hok p (mem_sortedF.mp hp)
  obtain ⟨he, _⟩ := process_devices_ok (sortedF found)
    (marks_state (pass_start s) found)
    ((offline_list (pass_start s) found).map Event.offlineMark) hoks
  unfold discover_devices
  rw [if_neg (by simp [hflag])]
  simp only [try_discover]
  unfold pass_result
  rcases hP : process_devices (marks_state (pass_start s) found)
      ((offline_list (pass_start s) found).map Event.offlineMark) (sortedF found)
    with ⟨s3, evs, err⟩
  rw [hP] at he
  have he2 : err = none := he
  subst he2
  rfl

theorem discover_devices_of_err (s : AppState)
    (net : Except String (List (String × RawDevice))) (e : String)
    (hflag : s.is_discovering = false)
    (he : (try_discover (pass_start s) net).2.2 = some e) :
    discover_devices s net =
      ({ (try_discover (pass_start s) net).1 with
          log := (try_discover (pass_start s) net).1.log ++ ["Discovery error: " ++ e]
          shown_errors := (try_discover (pass_start s) net).1.shown_errors ++
            ["Discovery failed: " ++ e]
          status_label := "Discovery failed"
          is_discovering := false
          refresh_enabled := true },
        (try_discover (pass_start s) net).2.1) := by
  unfold discover_devices
  rw [if_neg (by simp [hflag])]
  rcases hP : try_discover (pass_start s) net with ⟨s2, evs, err⟩
  rw [hP] at he
  have he2 : err = some e := he
  subst he2
  rfl

theorem try_discover_log_errors (s : AppState)
    (net : Except String (List (String × RawDevice))) :
    (try_discover s net).1.is_discovering = s.is_discovering ∧
    (try_discover s net).1.log = s.log ∧
    (try_discover s net).1.shown_errors = s.shown_errors := by
  cases net with
  | error e => exact ⟨rfl, rfl, rfl⟩
  | ok found =>
    simp only [try_discover]
    have h1 : pass_frame s (marks_state s found) := foldl_mark_frame _ _
    have h2 : pass_frame (marks_state s found)
        (process_devices (marks_state s found)
          ((offline_list s found).map Event.offlineMark) (sortedF found)).1 :=
      process_devices_frame _ _ _
    have h3 := pass_frame_trans h1 h2
    rcases hP : process_devices (marks_state s found)
        ((offline_list s found).map Event.offlineMark) (sortedF found)
      with ⟨s3, evs, err⟩
    rw [hP] at h3
    cases err with
    | none => exact ⟨h3.1, h3.2.2.2.1, h3.2.2.2.2⟩
    | some e => exact ⟨h3.1, h3.2.2.2.1, h3.2.2.2.2⟩

/-! ### Concrete devices and states used by scenario theorems and
witnesses (spec section 8) -/

/-- A healthy handle: cached and live attributes agree and all network
calls succeed. -/
def mkDev (a : DevAttrs) : RawDevice :=
  { cached := a, live := a, update_ok := true, turn_on_ok := true, turn_off_ok := true,
    fail_msg := "timeout" }

/-- The non-plug device of the scenario (`10.0.0.2`). -/
def dev_nonplug : RawDevice := mkDev
  { dalias := "Bulb", model := "KL130", is_plug := false, is_on := false,
    emeter_realtime := none }

/-- The metering HS110 plug of the scenario (`10.0.0.5`, power 23.4 W). -/
def dev_hs110 : RawDevice := mkDev
  { dalias := "Lamp", model := "HS110(EU)", is_plug := true, is_on := true,
    emeter_realtime := some (some (mkRat 234 10)) }

/-- The basic non-metering plug of the scenario (`10.0.0.9`). -/
def dev_basic : RawDevice := mkDev
  { dalias := "Fan", model := "HS100(EU)", is_plug := true, is_on := false,
    emeter_realtime := none }

/-- The scenario discovery result (deliberately unsorted). -/
def scenario_found : List (String × RawDevice) :=
  [("10.0.0.9", dev_basic), ("10.0.0.2", dev_nonplug), ("10.0.0.5", dev_hs110)]

/-- The state after one reconciliation pass over the scenario result. -/
def scenario_state : AppState :=
  (discover_devices initial_state (Except.ok scenario_found)).1

/-- Attributes of the off plug used in the toggle-failure witnesses. -/
def heater_attrs : DevAttrs :=
  { dalias := "Heater"
    model := "HS100(EU)"
    is_plug := true
    is_on := false
    emeter_realtime := none }

/-- A plug (off) whose switch commands fail. -/
def dev_cmd_fails : RawDevice :=
  { cached := heater_attrs
    live := heater_attrs
    update_ok := true
    turn_on_ok := false
    turn_off_ok := false
    fail_msg := "timeout" }

/-- A plug (off) whose switch commands succeed but whose state refresh
fails. -/
def dev_update_fails : RawDevice :=
  { cached := heater_attrs
    live := heater_attrs
    update_ok := false
    turn_on_ok := true
    turn_off_ok := true
    fail_msg := "timeout" }

/-- A UI row for a device that is off, with the toggle just pressed to
request the on state (a click on a checkable `QPushButton` flips
`isChecked` before the handler runs). -/
def el_off_requested_on : UiElement :=
  { widget_id := 0
    name_lbl := "Heater"
    ip_lbl := "IP: 10.0.0.7"
    power_lbl := PowerLabel.blank
    btn_text := "Turn On"
    btn_checked := true
    btn_style := BtnStyle.pink
    status_color := "#6c757d"
    widget_enabled := true
    widget_style := RowStyle.active
    is_online := true }

/-- A registry/UI state holding `dev_cmd_fails` at `10.0.0.7`. -/
def cmd_fail_state : AppState :=
  { plugs := [("10.0.0.7", dev_cmd_fails)]
    ui_elements := [("10.0.0.7", el_off_requested_on)]
    is_discovering := false
    status_label := "Found 1 device(s)"
    refresh_enabled := true
    next_widget_id := 1
    log := []
    shown_errors := [] }

/-- A registry/UI state holding `dev_update_fails` at `10.0.0.7`. -/
def upd_fail_state : AppState :=
  { plugs := [("10.0.0.7", dev_update_fails)]
    ui_elements := [("10.0.0.7", el_off_requested_on)]
    is_discovering := false
    status_label := "Found 1 device(s)"
    refresh_enabled := true
    next_widget_id := 1
    log := []
    shown_errors := [] }

/-! ### Claim theorems -/

/-- C2: for an address in the Registry with a UI row, if the requested
switch command (`turn_on` for a checked toggle, `turn_off` otherwise)
fails at the device-control collaborator, then `handle_toggle` returns
normally (no exception escapes the dispatcher), the Registry entry is
the unchanged handle (in particular its `is_on` value is unchanged), the
visible toggle is reverted to the opposite of the requested state, and
one error is surfaced. -/
theorem C2_rollback (s : AppState) (addr : String) (dev : RawDevice) (el : UiElement)
    (hp : lookupA s.plugs addr = some dev)
    (hu : lookupA s.ui_elements addr = some el)
    (hfail : (if el.btn_checked then dev.turn_on_ok else dev.turn_off_ok) = false) :
    ∃ s', handle_toggle s addr =
        some (s', [if el.btn_checked then DevCall.turnOnCall else DevCall.turnOffCall]) ∧
      lookupA s'.plugs addr = some dev ∧
      (lookupA s'.plugs addr).map (fun d => d.cached.is_on) = some dev.cached.is_on ∧
      (lookupA s'.ui_elements addr).map (fun e => e.btn_checked) = some (!el.btn_checked) ∧
      s'.shown_errors = s.shown_errors ++ ["Error switching device: " ++ dev.fail_msg] := by
  cases hb : el.btn_checked
  · rw [hb] at hfail
    simp only [if_neg, Bool.false_eq_true, if_false] at hfail ⊢
    refine ⟨toggle_fail s addr el false dev.fail_msg, ?_, ?_, ?_, ?_, ?_⟩
    · simp [handle_toggle, hp, hu, hb, dev_turn_off, hfail, toggle_fail]
    · simp [toggle_fail, hp]
    · simp [toggle_fail, hp]
    · simp [toggle_fail, lookupA_updateA_self, hb]
    · simp [toggle_fail]
  · rw [hb] at hfail
    simp only [if_pos] at hfail ⊢
    refine ⟨toggle_fail s addr el true dev.fail_msg, ?_, ?_, ?_, ?_, ?_⟩
    · simp [handle_toggle, hp, hu, hb, dev_turn_on, hfail, toggle_fail]
    · simp [toggle_fail, hp]
    · simp [toggle_fail, hp]
    · simp [toggle_fail, lookupA_updateA_self, hb]
    · simp [toggle_fail]

/-- Witness for C2 at a concrete input: a registry with one off plug at
`10.0.0.7` whose commands fail, toggled to on. -/
theorem C2_rollback_witness :
    lookupA cmd_fail_state.plugs "10.0.0.7" = some dev_cmd_fails ∧
    lookupA cmd_fail_state.ui_elements "10.0.0.7" = some el_off_requested_on ∧
    (if el_off_requested_on.btn_checked then dev_cmd_fails.turn_on_ok
      else dev_cmd_fails.turn_off_ok) = false ∧
    (∃ s', handle_toggle cmd_fail_state "10.0.0.7" =
        some (s', [if el_off_requested_on.btn_checked then DevCall.turnOnCall
          else DevCall.turnOffCall]) ∧
      lookupA s'.plugs "10.0.0.7" = some dev_cmd_fails ∧
      (lookupA s'.plugs "10.0.0.7").map (fun d => d.cached.is_on) =
        some dev_cmd_fails.cached.is_on ∧
      (lookupA s'.ui_elements "10.0.0.7").map (fun e => e.btn_checked) =
        some (!el_off_requested_on.btn_checked) ∧
      s'.shown_errors = cmd_fail_state.shown_errors ++
        ["Error switching device: " ++ dev_cmd_fails.fail_msg]) :=
  ⟨by decide, by decide, by decide,
    C2_rollback cmd_fail_state "10.0.0.7" dev_cmd_fails el_off_requested_on
      (by decide) (by decide) (by decide)⟩

/-- C9 counterexample: a toggle request for an address absent from the
Registry is ignored, but nothing at all is appended to the log — the
claim's assertion that the condition is logged does not hold (the code
is `if not dev: return` with no logging call). -/
theorem C9_counterexample :
    handle_toggle initial_state "10.0.0.1" = some (initial_state, []) ∧
    initial_state.log = [] ∧
    (handle_toggle initial_state "10.0.0.1").map (fun r => r.1.log) = some [] := by
  refine ⟨by decide, by decide, by decide⟩

/-- C9 (amended): a toggle request whose address is absent from the
Registry is ignored: the dispatcher returns without invoking the
device-control collaborator (no calls issued), without mutating any
state (so also without surfacing an error), and without raising — but
the condition is not logged either. -/
theorem C9_amended (s : AppState) (addr : String)
    (h : lookupA s.plugs addr = none) :
    handle_toggle s addr = some (s, []) := by
  simp [handle_toggle, h]

/-- Witness for C9 at a concrete input. -/
theorem C9_amended_witness :
    lookupA initial_state.plugs "10.0.0.1" = none ∧
    handle_toggle initial_state "10.0.0.1" = some (initial_state, []) :=
  ⟨by decide, C9_amended initial_state "10.0.0.1" (by decide)⟩

/-- C10: if the switch command succeeds but the subsequent `dev.update()`
raises, `handle_toggle` takes the same failure path as a failed command:
the toggle is reverted to the opposite of the requested state even
though the physical switch now holds the requested state, the Registry
keeps the un-refreshed handle (cached attributes unchanged), and one
error is surfaced. -/
theorem C10_update_failure (s : AppState) (addr : String) (dev : RawDevice) (el : UiElement)
    (hp : lookupA s.plugs addr = some dev)
    (hu : lookupA s.ui_elements addr = some el)
    (hturn : (if el.btn_checked then dev.turn_on_ok else dev.turn_off_ok) = true)
    (hupd : dev.update_ok = false) :
    ∃ s', handle_toggle s addr =
        some (s', [if el.btn_checked then DevCall.turnOnCall else DevCall.turnOffCall,
          DevCall.updateCall]) ∧
      (lookupA s'.ui_elements addr).map (fun e => e.btn_checked) = some (!el.btn_checked) ∧
      (lookupA s'.plugs addr).map (fun d => d.live.is_on) = some el.btn_checked ∧
      (lookupA s'.plugs addr).map (fun d => d.cached) = some dev.cached ∧
      s'.shown_errors = s.shown_errors ++ ["Error switching device: " ++ dev.fail_msg] := by
  cases hb : el.btn_checked
  · rw [hb] at hturn
    simp only [if_neg, Bool.false_eq_true, if_false] at hturn ⊢
    refine ⟨toggle_fail ({ s with plugs := updateA s.plugs addr { dev with live := { dev.live with is_on := false } } }) addr el false dev.fail_msg, ?_, ?_, ?_, ?_, ?_⟩
    · simp [handle_toggle, hp, hu, hb, dev_turn_off, hturn, dev_update, hupd, toggle_fail]
    · simp [toggle_fail, lookupA_updateA_self, hb]
    · simp [toggle_fail, lookupA_updateA_self]
    · simp [toggle_fail, lookupA_updateA_self]
    · simp [toggle_fail]
  · rw [hb] at hturn
    simp only [if_pos] at hturn ⊢
    refine ⟨toggle_fail ({ s with plugs := updateA s.plugs addr { dev with live := { dev.live with is_on := true } } }) addr el true dev.fail_msg, ?_, ?_, ?_, ?_, ?_⟩
    · simp [handle_toggle, hp, hu, hb, dev_turn_on, hturn, dev_update, hupd, toggle_fail]
    · simp [toggle_fail, lookupA_updateA_self, hb]
    · simp [toggle_fail, lookupA_updateA_self]
    · simp [toggle_fail, lookupA_updateA_self]
    · simp [toggle_fail]

/-- Witness for C10 at a concrete input: the off plug at `10.0.0.7`
whose refresh fails, toggled to on. -/
theorem C10_update_failure_witness :
    lookupA upd_fail_state.plugs "10.0.0.7" = some dev_update_fails ∧
    lookupA upd_fail_state.ui_elements "10.0.0.7" = some el_off_requested_on ∧
    (if el_off_requested_on.btn_checked then dev_update_fails.turn_on_ok
      else dev_update_fails.turn_off_ok) = true ∧
    dev_update_fails.update_ok = false ∧
    (∃ s', handle_toggle upd_fail_state "10.0.0.7" =
        some (s', [if el_off_requested_on.btn_checked then DevCall.turnOnCall
          else DevCall.turnOffCall, DevCall.updateCall]) ∧
      (lookupA s'.ui_elements "10.0.0.7").map (fun e => e.btn_checked) =
        some (!el_off_requested_on.btn_checked) ∧
      (lookupA s'.plugs "10.0.0.7").map (fun d => d.live.is_on) =
        some el_off_requested_on.btn_checked ∧
      (lookupA s'.plugs "10.0.0.7").map (fun d => d.cached) = some dev_update_fails.cached ∧
      s'.shown_errors = upd_fail_state.shown_errors ++
        ["Error switching device: " ++ dev_update_fails.fail_msg]) :=
  ⟨by decide, by decide, by decide, by decide,
    C10_update_failure upd_fail_state "10.0.0.7" dev_update_fails el_off_requested_on
      (by decide) (by decide) (by decide) (by decide)⟩

/-- C3: the single-flight guard.  A `discover_devices` request issued
while `is_discovering` is set returns immediately with the state (and in
particular the Registry) completely untouched and no notifications; the
flag is raised at pass entry (`pass_start`) and every step of the pass
body (offline marks and the per-device loop) preserves it, so every
state reachable inside a running pass keeps the flag and any re-entrant
request — timer-driven or manual — is such a no-op: at most one pass
mutates the Registry at a time. -/
theorem C3_single_flight (s : AppState)
    (net : Except String (List (String × RawDevice)))
    (h : s.is_discovering = true) :
    discover_devices s net = (s, []) ∧
    manual_refresh s net = (s, []) ∧
    (∀ t : AppState, (pass_start t).is_discovering = true) ∧
    (∀ (t : AppState) (L : List String),
      (L.foldl mark_device_offline t).is_discovering = t.is_discovering) ∧
    (∀ (t : AppState) (evs : List Event) (l : List (String × RawDevice)),
      (process_devices t evs l).1.is_discovering = t.is_discovering) :=
  ⟨discover_devices_guard s net h, discover_devices_guard s net h, fun _ => rfl,
    fun t L => (foldl_mark_frame L t).1,
    fun t evs l => (process_devices_frame l t evs).1⟩

/-- Witness for C3 at a concrete input: a state whose pass has just
started (flag set). -/
theorem C3_single_flight_witness :
    (pass_start initial_state).is_discovering = true ∧
    (discover_devices (pass_start initial_state) (Except.ok scenario_found) =
        (pass_start initial_state, []) ∧
      manual_refresh (pass_start initial_state) (Except.ok scenario_found) =
        (pass_start initial_state, []) ∧
      (∀ t : AppState, (pass_start t).is_discovering = true) ∧
      (∀ (t : AppState) (L : List String),
        (L.foldl mark_device_offline t).is_discovering = t.is_discovering) ∧
      (∀ (t : AppState) (evs : List Event) (l : List (String × RawDevice)),
        (process_devices t evs l).1.is_discovering = t.is_discovering)) :=
  ⟨by decide,
    C3_single_flight (pass_start initial_state) (Except.ok scenario_found) (by decide)⟩

/-- C5: failure handling of a reconciliation pass.  (a) When the
discovery call itself raises, the Registry and the UI rows are left
untouched, exactly one recoverable error is surfaced, no notifications
are emitted, and the single-flight flag is cleared (the `finally`
block), so the next scheduled or manual trigger runs a fresh pass.
(b) When a per-device `update()` raises, the remaining devices of the
pass are not processed: for an existing address the already-executed
store of the fresh handle (line 117, which precedes the failing
`update()`) is kept and nothing else changes; for a new address nothing
is stored.  (c) Whatever step of the `try` body failed, exactly one
recoverable error is surfaced and the flag is cleared. -/
theorem C5_failure_handling (s : AppState)
    (net : Except String (List (String × RawDevice))) (e : String)
    (hflag : s.is_discovering = false) :
    ((discover_devices s (Except.error e)).1.plugs = s.plugs ∧
      (discover_devices s (Except.error e)).1.ui_elements = s.ui_elements ∧
      (discover_devices s (Except.error e)).1.shown_errors =
        s.shown_errors ++ ["Discovery failed: " ++ e] ∧
      (discover_devices s (Except.error e)).1.is_discovering = false ∧
      (discover_devices s (Except.error e)).1.refresh_enabled = true ∧
      (discover_devices s (Except.error e)).2 = []) ∧
    (∀ (t : AppState) (evs : List Event) (addr : String) (dev : RawDevice)
        (rest : List (String × RawDevice)),
      dev.update_ok = false →
      ((∃ w, lookupA t.plugs addr = some w) →
        process_devices t evs ((addr, dev) :: rest) =
          ({ t with plugs := updateA t.plugs addr dev }, evs, some dev.fail_msg)) ∧
      (lookupA t.plugs addr = none →
        process_devices t evs ((addr, dev) :: rest) = (t, evs, some dev.fail_msg))) ∧
    ((try_discover (pass_start s) net).2.2 = some e →
      (discover_devices s net).1.shown_errors =
        s.shown_errors ++ ["Discovery failed: " ++ e] ∧
      (discover_devices s net).1.is_discovering = false ∧
      (discover_devices s net).1.refresh_enabled = true) := by
  refine ⟨?_, ?_, ?_⟩
  · rw [discover_devices_error_eq s e hflag]
    exact ⟨rfl, rfl, rfl, rfl, rfl, rfl⟩
  · intro t evs addr dev rest hupd
    constructor
    · rintro ⟨w, hw⟩
      simp only [process_devices, hw, dev_update_of_fail hupd]
    · intro hw
      simp only [process_devices, hw, dev_update_of_fail hupd]
  · intro he
    rw [discover_devices_of_err s net e hflag he]
    obtain ⟨_, _, h3⟩ := try_discover_log_errors (pass_start s) net
    refine ⟨?_, rfl, rfl⟩
    rw [h3]
    rfl

/-- Witness for C5 at a concrete input: a failing discovery call from
the initial state. -/
theorem C5_failure_handling_witness :
    initial_state.is_discovering = false ∧
    (((discover_devices initial_state (Except.error "timeout")).1.plugs =
          initial_state.plugs ∧
      (discover_devices initial_state (Except.error "timeout")).1.ui_elements =
          initial_state.ui_elements ∧
      (discover_devices initial_state (Except.error "timeout")).1.shown_errors =
          initial_state.shown_errors ++ ["Discovery failed: " ++ "timeout"] ∧
      (discover_devices initial_state (Except.error "timeout")).1.is_discovering = false ∧
      (discover_devices initial_state (Except.error "timeout")).1.refresh_enabled = true ∧
      (discover_devices initial_state (Except.error "timeout")).2 = []) ∧
    (∀ (t : AppState) (evs : List Event) (addr : String) (dev : RawDevice)
        (rest : List (String × RawDevice)),
      dev.update_ok = false →
      ((∃ w, lookupA t.plugs addr = some w) →
        process_devices t evs ((addr, dev) :: rest) =
          ({ t with plugs := updateA t.plugs addr dev }, evs, some dev.fail_msg)) ∧
      (lookupA t.plugs addr = none →
        process_devices t evs ((addr, dev) :: rest) = (t, evs, some dev.fail_msg))) ∧
    ((try_discover (pass_start initial_state) (Except.error "timeout")).2.2 =
        some "timeout" →
      (discover_devices initial_state (Except.error "timeout")).1.shown_errors =
        initial_state.shown_errors ++ ["Discovery failed: " ++ "timeout"] ∧
      (discover_devices initial_state (Except.error "timeout")).1.is_discovering = false ∧
      (discover_devices initial_state (Except.error "timeout")).1.refresh_enabled = true)) :=
  ⟨by decide,
    C5_failure_handling initial_state (Except.error "timeout") "timeout" (by decide)⟩

theorem keysA_sortedF_sorted (found : List (String × RawDevice)) :
    List.Pairwise (fun a b => strLe a b = true) (keysA (sortedF found)) := by
  have h := List.sorted_insertionSort
    (fun p q : String × RawDevice => strLe p.1 q.1 = true) found
  unfold sortedF keysA
  exact List.pairwise_map.mpr h

/-- C6: within a single successful reconciliation pass, the emitted
change notifications are exactly the offline marks followed by the
per-device refreshes — every unreachable-marking precedes every
refresh — and the refreshed addresses are in ascending (lexicographic)
address order; the offline set is the previous registry keys minus the
discovered keys. -/
theorem C6_ordering (s : AppState) (found : List (String × RawDevice))
    (hflag : s.is_discovering = false)
    (hok : ∀ p ∈ found, p.2.update_ok = true) :
    (discover_devices s (Except.ok found)).2 =
      (offline_list (pass_start s) found).map Event.offlineMark ++
        (keysA (sortedF found)).map Event.refresh ∧
    List.Pairwise (fun a b => strLe a b = true) (keysA (sortedF found)) ∧
    offline_list (pass_start s) found =
      (keysA s.plugs).filter (fun a => ! (keysA found).contains a) := by
  refine ⟨?_, keysA_sortedF_sorted found, rfl⟩
  rw [discover_devices_ok_eq s found hflag hok]
  obtain ⟨_, hevs⟩ := process_devices_ok (sortedF found)
    (marks_state (pass_start s) found)
    ((offline_list (pass_start s) found).map Event.offlineMark)
    (fun p hp => hok p (mem_sortedF.mp hp))
  exact hevs

/-- Witness for C6 at a concrete input. -/
theorem C6_ordering_witness :
    initial_state.is_discovering = false ∧
    (∀ p ∈ scenario_found, p.2.update_ok = true) ∧
    ((discover_devices initial_state (Except.ok scenario_found)).2 =
      (offline_list (pass_start initial_state) scenario_found).map Event.offlineMark ++
        (keysA (sortedF scenario_found)).map Event.refresh ∧
    List.Pairwise (fun a b => strLe a b = true) (keysA (sortedF scenario_found)) ∧
    offline_list (pass_start initial_state) scenario_found =
      (keysA initial_state.plugs).filter
        (fun a => ! (keysA scenario_found).contains a)) :=
  ⟨by decide, by decide,
    C6_ordering initial_state scenario_found (by decide) (by decide)⟩

/-- The state after one reconciliation pass over `found` (used to state
idempotence). -/
def after_pass (s : AppState) (found : List (String × RawDevice)) : AppState :=
  (discover_devices s (Except.ok found)).1

/-- C7: running a reconciliation pass twice in succession with the same
(successful, duplicate-free) discovery result leaves the Registry's
observable state unchanged: the second pass yields the same address
list, the same cached `is_on` per address, and the same cached power
data per address as the first. -/
theorem C7_idempotent (s : AppState) (found : List (String × RawDevice))
    (hflag : s.is_discovering = false)
    (hok : ∀ p ∈ found, p.2.update_ok = true)
    (hnd : (keysA found).Nodup) :
    keysA (after_pass (after_pass s found) found).plugs =
      keysA (after_pass s found).plugs ∧
    (∀ a, (lookupA (after_pass (after_pass s found) found).plugs a).map
        (fun d => d.cached.is_on) =
      (lookupA (after_pass s found).plugs a).map (fun d => d.cached.is_on)) ∧
    (∀ a, (lookupA (after_pass (after_pass s found) found).plugs a).map
        (fun d => d.cached.emeter_realtime) =
      (lookupA (after_pass s found).plugs a).map (fun d => d.cached.emeter_realtime)) := by
  have hoks : ∀ p ∈ sortedF found, p.2.update_ok = true :=
    fun p hp => hok p (mem_sortedF.mp hp)
  have hnds : (keysA (sortedF found)).Nodup := keysA_sortedF_nodup hnd
  have hkmem : ∀ a : String, a ∈ keysA (sortedF found) ↔ a ∈ keysA found := by
    intro a
    have hperm : List.Perm (keysA (sortedF found)) (keysA found) :=
      List.Perm.map Prod.fst (List.perm_insertionSort _ found)
    exact hperm.mem_iff
  have ht1flag : (after_pass s found).is_discovering = false := by
    rw [after_pass, discover_devices_ok_eq s found hflag hok]
  have ht1mem : ∀ a d, lookupA found a = some d →
      lookupA (after_pass s found).plugs a = some (upd_dev d) := by
    intro a d hfd
    have hmem : (a, d) ∈ sortedF found := mem_sortedF.mpr (lookupA_mem hfd)
    rw [after_pass, discover_devices_ok_eq s found hflag hok]
    show lookupA (pass_result s found).1.plugs a = some (upd_dev d)
    unfold pass_result
    cases hsw : lookupA (marks_state (pass_start s) found).plugs a with
    | some w => exact (process_devices_existing (sortedF found) _ _ hnds hoks hmem hsw).1
    | none => exact (process_devices_new (sortedF found) _ _ hnds hoks hmem hsw).1
  have hall : ∀ a, lookupA (after_pass (after_pass s found) found).plugs a =
      lookupA (after_pass s found).plugs a := by
    intro a
    by_cases hmem : a ∈ keysA found
    · obtain ⟨d, hd⟩ := Option.isSome_iff_exists.mp
        ((lookupA_isSome_iff found a).mpr hmem)
      have h1 : lookupA (after_pass s found).plugs a = some (upd_dev d) := ht1mem a d hd
      have h2 : lookupA (after_pass (after_pass s found) found).plugs a =
          some (upd_dev d) := by
        rw [after_pass, discover_devices_ok_eq (after_pass s found) found ht1flag hok]
        show lookupA (pass_result (after_pass s found) found).1.plugs a = _
        unfold pass_result
        have hsw : lookupA (marks_state (pass_start (after_pass s found)) found).plugs a =
            some (upd_dev d) := by
          rw [marks_state_plugs]
          exact h1
        have hmem2 : (a, d) ∈ sortedF found := mem_sortedF.mpr (lookupA_mem hd)
        exact (process_devices_existing (sortedF found) _ _ hnds hoks hmem2 hsw).1
      rw [h2, h1]
    · have has : a ∉ keysA (sortedF found) := fun hm => hmem ((hkmem a).mp hm)
      rw [after_pass, discover_devices_ok_eq (after_pass s found) found ht1flag hok]
      show lookupA (pass_result (after_pass s found) found).1.plugs a = _
      unfold pass_result
      rw [(process_devices_untouched (sortedF found) _ _ has).1]
      rw [marks_state_plugs]
      rfl
  have hkeys : keysA (after_pass (after_pass s found) found).plugs =
      keysA (after_pass s found).plugs := by
    rw [after_pass, discover_devices_ok_eq (after_pass s found) found ht1flag hok]
    show keysA (pass_result (after_pass s found) found).1.plugs = _
    unfold pass_result
    rw [process_devices_keys (sortedF found) _ _ hnds hoks]
    have hfil : (sortedF found).filter
        (fun p => !(lookupA (marks_state (pass_start (after_pass s found)) found).plugs
          p.1).isSome) = [] := by
      rw [List.filter_eq_nil_iff]
      intro p hp
      have hd : lookupA found p.1 = some p.2 :=
        lookupA_of_mem_nodup (mem_sortedF.mp hp) hnd
      have hlook : lookupA (marks_state (pass_start (after_pass s found)) found).plugs
          p.1 = some (upd_dev p.2) := by
        rw [marks_state_plugs]
        exact ht1mem p.1 p.2 hd
      simp [hlook]
    rw [hfil]
    rw [marks_state_plugs]
    show keysA (after_pass s found).plugs ++ List.map Prod.fst [] =
      keysA (after_pass s found).plugs
    simp
  exact ⟨hkeys, fun a => by rw [hall a], fun a => by rw [hall a]⟩

/-- Witness for C7 at a concrete input: the scenario discovery result
run from the initial state. -/
theorem C7_idempotent_witness :
    initial_state.is_discovering = false ∧
    (∀ p ∈ scenario_found, p.2.update_ok = true) ∧
    (keysA scenario_found).Nodup ∧
    (keysA (after_pass (after_pass initial_state scenario_found) scenario_found).plugs =
      keysA (after_pass initial_state scenario_found).plugs ∧
    (∀ a, (lookupA (after_pass (after_pass initial_state scenario_found)
          scenario_found).plugs a).map (fun d => d.cached.is_on) =
      (lookupA (after_pass initial_state scenario_found).plugs a).map
        (fun d => d.cached.is_on)) ∧
    (∀ a, (lookupA (after_pass (after_pass initial_state scenario_found)
          scenario_found).plugs a).map (fun d => d.cached.emeter_realtime) =
      (lookupA (after_pass initial_state scenario_found).plugs a).map
        (fun d => d.cached.emeter_realtime))) :=
  ⟨by decide, by decide, by decide,
    C7_idempotent initial_state scenario_found (by decide) (by decide) (by decide)⟩

theorem keysA_sortedF_mem {found : List (String × RawDevice)} {a : String} :
    a ∈ keysA (sortedF found) ↔ a ∈ keysA found := by
  have hperm : List.Perm (keysA (sortedF found)) (keysA found) :=
    List.Perm.map Prod.fst (List.perm_insertionSort _ found)
  exact hperm.mem_iff

/-- C1 counterexample: a discovery result holding one non-plug device;
after one reconciliation pass from the initial state the plugs mapping
DOES contain an entry for its address (line 113 stores every discovered
handle unconditionally — only the UI row creation checks `is_plug`),
refuting the claim that a device whose plug-capability flag is false is
never inserted into the Registry. -/
theorem C1_counterexample :
    dev_nonplug.cached.is_plug = false ∧
    (lookupA (discover_devices initial_state
        (Except.ok [("10.0.0.2", dev_nonplug)])).1.plugs "10.0.0.2").isSome = true :=
  ⟨by decide, by decide⟩

/-- C1 (amended): after one reconciliation pass from the initial (empty)
state over a duplicate-free, successfully refreshed discovery result,
the plugs mapping contains an entry for EVERY discovered address —
plug-capable or not — while the UI row set (`ui_elements`) contains
exactly the plug-capable addresses; a device whose plug-capability flag
is false never receives a UI row. -/
theorem C1_amended (found : List (String × RawDevice))
    (hnd : (keysA found).Nodup)
    (hok : ∀ p ∈ found, p.2.update_ok = true) :
    (∀ a, a ∈ keysA (discover_devices initial_state (Except.ok found)).1.plugs ↔
        a ∈ keysA found) ∧
    (∀ a, a ∈ keysA (discover_devices initial_state (Except.ok found)).1.ui_elements ↔
        ∃ d, (a, d) ∈ found ∧ d.live.is_plug = true) := by
  have hoks : ∀ p ∈ sortedF found, p.2.update_ok = true :=
    fun p hp => hok p (mem_sortedF.mp hp)
  have hnds : (keysA (sortedF found)).Nodup := keysA_sortedF_nodup hnd
  have hbase : marks_state (pass_start initial_state) found = pass_start initial_state := rfl
  rw [discover_devices_ok_eq initial_state found rfl hok]
  constructor
  · intro a
    show a ∈ keysA (pass_result initial_state found).1.plugs ↔ _
    unfold pass_result
    rw [process_devices_keys (sortedF found) _ _ hnds hoks, hbase]
    have hfil : (sortedF found).filter
        (fun p => !(lookupA (pass_start initial_state).plugs p.1).isSome) =
          sortedF found :=
      List.filter_eq_self.mpr (fun p _ => rfl)
    rw [hfil]
    have h0 : keysA (pass_start initial_state).plugs = [] := rfl
    rw [h0, List.nil_append]
    exact keysA_sortedF_mem
  · intro a
    show a ∈ keysA (pass_result initial_state found).1.ui_elements ↔ _
    unfold pass_result
    rw [hbase]
    have hnew : ∀ p ∈ sortedF found,
        lookupA (pass_start initial_state).plugs p.1 = none ∧
        lookupA (pass_start initial_state).ui_elements p.1 = none :=
      fun p _ => ⟨rfl, rfl⟩
    rw [process_devices_ui_keys (sortedF found) _ _ hnds hoks hnew]
    have h0 : keysA (pass_start initial_state).ui_elements = [] := rfl
    rw [h0, List.nil_append]
    constructor
    · intro hm
      obtain ⟨p, hpmem, hpeq⟩ := List.mem_map.mp hm
      have hpf := List.mem_filter.mp hpmem
      refine ⟨p.2, ?_, hpf.2⟩
      have hpe : p = (a, p.2) := by
        rw [← hpeq]
      rw [← hpe]
      exact mem_sortedF.mp hpf.1
    · rintro ⟨d, hdmem, hdp⟩
      exact List.mem_map.mpr ⟨(a, d),
        List.mem_filter.mpr ⟨mem_sortedF.mpr hdmem, hdp⟩, rfl⟩

/-- Witness for C1 (amended) at the concrete scenario input. -/
theorem C1_amended_witness :
    (keysA scenario_found).Nodup ∧
    (∀ p ∈ scenario_found, p.2.update_ok = true) ∧
    ((∀ a, a ∈ keysA (discover_devices initial_state
        (Except.ok scenario_found)).1.plugs ↔ a ∈ keysA scenario_found) ∧
    (∀ a, a ∈ keysA (discover_devices initial_state
        (Except.ok scenario_found)).1.ui_elements ↔
        ∃ d, (a, d) ∈ scenario_found ∧ d.live.is_plug = true)) :=
  ⟨by decide, by decide, C1_amended scenario_found (by decide) (by decide)⟩

/-- The discovery result holding only the non-plug device. -/
def nonplug_only : List (String × RawDevice) := [("10.0.0.2", dev_nonplug)]

/-- State after a pass over `nonplug_only`. -/
def np_state : AppState := (discover_devices initial_state (Except.ok nonplug_only)).1

/-- State after a further pass whose discovery result is empty. -/
def np_state2 : AppState := (discover_devices np_state (Except.ok [])).1

/-- C4 counterexample: the non-plug entry at `10.0.0.2` is in the
Registry before a pass whose discovery result omits it; after the pass
the entry is retained, but it is NOT marked unreachable — no UI row
(the only holder of the `is_online`/reachability flag) exists for it, so
nothing records `is_online = false`. -/
theorem C4_counterexample :
    (lookupA np_state.plugs "10.0.0.2").isSome = true ∧
    "10.0.0.2" ∉ keysA ([] : List (String × RawDevice)) ∧
    (lookupA np_state2.plugs "10.0.0.2").isSome = true ∧
    (lookupA np_state2.ui_elements "10.0.0.2").map (fun e => e.is_online) ≠ some false ∧
    lookupA np_state2.ui_elements "10.0.0.2" = none :=
  ⟨by decide, by decide, by decide, by decide, by decide⟩

/-- C4 (amended): for every address that has a UI row (i.e. was added as
a plug-capable device): if a successful pass omits it, its Registry
entry is retained unchanged and its row is marked offline
(`is_online = false`); if a pass contains it again, the same row — same
widget identity, never deleted and re-created — is marked online again
and its attributes are refreshed from the device. -/
theorem C4_amended (s : AppState) (found : List (String × RawDevice))
    (hflag : s.is_discovering = false)
    (hnd : (keysA found).Nodup)
    (hok : ∀ p ∈ found, p.2.update_ok = true) :
    (∀ addr dev el, lookupA s.plugs addr = some dev →
      lookupA s.ui_elements addr = some el → addr ∉ keysA found →
      lookupA (discover_devices s (Except.ok found)).1.plugs addr = some dev ∧
      (lookupA (discover_devices s (Except.ok found)).1.ui_elements addr).map
        (fun e => e.is_online) = some false) ∧
    (∀ addr dev w el, lookupA found addr = some dev →
      lookupA s.plugs addr = some w → lookupA s.ui_elements addr = some el →
      lookupA (discover_devices s (Except.ok found)).1.plugs addr = some (upd_dev dev) ∧
      (lookupA (discover_devices s (Except.ok found)).1.ui_elements addr).map
        (fun e => e.is_online) = some true ∧
      (lookupA (discover_devices s (Except.ok found)).1.ui_elements addr).map
        (fun e => e.widget_id) = some el.widget_id ∧
      (lookupA (discover_devices s (Except.ok found)).1.ui_elements addr).map
        (fun e => e.name_lbl) = some dev.live.dalias) := by
  have hoks : ∀ p ∈ sortedF found, p.2.update_ok = true :=
    fun p hp => hok p (mem_sortedF.mp hp)
  have hnds : (keysA (sortedF found)).Nodup := keysA_sortedF_nodup hnd
  constructor
  · intro addr dev el hp hu hnot
    rw [discover_devices_ok_eq s found hflag hok]
    have hnots : addr ∉ keysA (sortedF found) := fun hm => hnot (keysA_sortedF_mem.mp hm)
    obtain ⟨u1, u2⟩ := process_devices_untouched (sortedF found)
      (marks_state (pass_start s) found)
      ((offline_list (pass_start s) found).map Event.offlineMark) hnots
    have hoff : addr ∈ offline_list (pass_start s) found := by
      unfold offline_list
      rw [List.mem_filter]
      constructor
      · exact (lookupA_isSome_iff (pass_start s).plugs addr).mp (by
          show (lookupA s.plugs addr).isSome = true
          simp [hp])
      · simp [hnot]
    have hmu : lookupA (marks_state (pass_start s) found).ui_elements addr =
        some (marked_el el) := by
      unfold marks_state
      exact foldl_mark_ui_of_mem _ _ hoff hu
    constructor
    · show lookupA (pass_result s found).1.plugs addr = some dev
      unfold pass_result
      rw [u1, marks_state_plugs]
      exact hp
    · show (lookupA (pass_result s found).1.ui_elements addr).map
        (fun e => e.is_online) = some false
      unfold pass_result
      rw [u2, hmu]
      rfl
  · intro addr dev w el hfd hp hu
    rw [discover_devices_ok_eq s found hflag hok]
    have hmem : (addr, dev) ∈ sortedF found := mem_sortedF.mpr (lookupA_mem hfd)
    have hsw : lookupA (marks_state (pass_start s) found).plugs addr = some w := by
      rw [marks_state_plugs]
      exact hp
    obtain ⟨r1, r2⟩ := process_devices_existing (sortedF found)
      (marks_state (pass_start s) found)
      ((offline_list (pass_start s) found).map Event.offlineMark) hnds hoks hmem hsw
    have haddr : addr ∈ keysA found :=
      (lookupA_isSome_iff found addr).mp (by simp [hfd])
    have hnoff : addr ∉ offline_list (pass_start s) found := by
      unfold offline_list
      intro hm
      have h2 := (List.mem_filter.mp hm).2
      simp [haddr] at h2
    have hmu : lookupA (marks_state (pass_start s) found).ui_elements addr = some el := by
      unfold marks_state
      rw [foldl_mark_ui_of_not_mem _ _ hnoff]
      exact hu
    rw [hmu] at r2
    refine ⟨?_, ?_, ?_, ?_⟩
    · show lookupA (pass_result s found).1.plugs addr = some (upd_dev dev)
      unfold pass_result
      exact r1
    · show (lookupA (pass_result s found).1.ui_elements addr).map
        (fun e => e.is_online) = some true
      unfold pass_result
      rw [r2]
      simp [widget_state_of_is_online, restore_online_is_online]
    · show (lookupA (pass_result s found).1.ui_elements addr).map
        (fun e => e.widget_id) = some el.widget_id
      unfold pass_result
      rw [r2]
      simp [widget_state_of_widget_id, restore_online_widget_id]
    · show (lookupA (pass_result s found).1.ui_elements addr).map
        (fun e => e.name_lbl) = some dev.live.dalias
      unfold pass_result
      rw [r2]
      simp [widget_state_of_name_lbl]
      rfl

/-- Witness for C4 (amended): from the scenario state, a pass seeing
only `10.0.0.9` (so `10.0.0.5` goes offline and `10.0.0.9` is
refreshed). -/
theorem C4_amended_witness :
    scenario_state.is_discovering = false ∧
    (keysA [("10.0.0.9", dev_basic)]).Nodup ∧
    (∀ p ∈ [("10.0.0.9", dev_basic)], p.2.update_ok = true) ∧
    ((∀ addr dev el, lookupA scenario_state.plugs addr = some dev →
      lookupA scenario_state.ui_elements addr = some el →
      addr ∉ keysA [("10.0.0.9", dev_basic)] →
      lookupA (discover_devices scenario_state
        (Except.ok [("10.0.0.9", dev_basic)])).1.plugs addr = some dev ∧
      (lookupA (discover_devices scenario_state
        (Except.ok [("10.0.0.9", dev_basic)])).1.ui_elements addr).map
        (fun e => e.is_online) = some false) ∧
    (∀ addr dev w el, lookupA [("10.0.0.9", dev_basic)] addr = some dev →
      lookupA scenario_state.plugs addr = some w →
      lookupA scenario_state.ui_elements addr = some el →
      lookupA (discover_devices scenario_state
        (Except.ok [("10.0.0.9", dev_basic)])).1.plugs addr = some (upd_dev dev) ∧
      (lookupA (discover_devices scenario_state
        (Except.ok [("10.0.0.9", dev_basic)])).1.ui_elements addr).map
        (fun e => e.is_online) = some true ∧
      (lookupA (discover_devices scenario_state
        (Except.ok [("10.0.0.9", dev_basic)])).1.ui_elements addr).map
        (fun e => e.widget_id) = some el.widget_id ∧
      (lookupA (discover_devices scenario_state
        (Except.ok [("10.0.0.9", dev_basic)])).1.ui_elements addr).map
        (fun e => e.name_lbl) = some dev.live.dalias)) :=
  ⟨by decide, by decide, by decide,
    C4_amended scenario_state [("10.0.0.9", dev_basic)]
      (by decide) (by decide) (by decide)⟩

theorem widget_state_of_power_lbl (el : UiElement) (a : DevAttrs) :
    (widget_state_of el a).power_lbl =
      (if ENABLE_POWER_MONITORING && starts_with a.model "HS110" &&
          a.emeter_realtime.isSome
        then PowerLabel.reading (emeter_power a.emeter_realtime)
        else PowerLabel.blank) := by
  unfold widget_state_of
  dsimp only
  cases ho : a.is_on <;>
    cases hm : ENABLE_POWER_MONITORING && starts_with a.model "HS110" &&
      a.emeter_realtime.isSome <;>
    simp [ho, hm]

/-- C8 counterexample: the non-plug device of the scenario at
`10.0.0.2` DOES have a Registry (plugs) entry after reconciliation,
refuting the claim that it has none. -/
theorem C8_counterexample :
    (lookupA scenario_state.plugs "10.0.0.2").isSome = true := by decide

/-- C8 (amended): for every device, a power reading is presented if and
only if the device supports power metering — in this code, power
monitoring enabled, an HS110 model, and truthy emeter data — and a
successful refresh has occurred: the row-state writer
(`update_device_widget_state`, which every call site runs only on
attributes read after a successful `update()`) shows the refreshed
emeter power under exactly that condition and an empty label otherwise;
a freshly created row shows no reading before that write; and after one
successful pass every discovered plug's row shows the reading of its
refreshed (live) data exactly when the refreshed device is metering.
In the concrete scenario, the metering HS110 plug at `10.0.0.5`
displays 23.4, the non-metering plug at `10.0.0.9` displays no reading,
the non-plug device at `10.0.0.2` has no UI row — though it is present
in the plugs mapping, which holds all three addresses — and the two
plug rows display in ascending address order. -/
theorem C8_amended :
    (∀ (el : UiElement) (a : DevAttrs),
      (widget_state_of el a).power_lbl =
        (if ENABLE_POWER_MONITORING && starts_with a.model "HS110" &&
            a.emeter_realtime.isSome
          then PowerLabel.reading (emeter_power a.emeter_realtime)
          else PowerLabel.blank)) ∧
    (∀ (el : UiElement) (a : DevAttrs),
      (∃ w, (widget_state_of el a).power_lbl = PowerLabel.reading w) ↔
        (ENABLE_POWER_MONITORING && starts_with a.model "HS110" &&
          a.emeter_realtime.isSome) = true) ∧
    (∀ (n : Nat) (addr : String) (dev : RawDevice),
      (fresh_el n addr dev).power_lbl = PowerLabel.blank) ∧
    (∀ (found : List (String × RawDevice)), (keysA found).Nodup →
      (∀ p ∈ found, p.2.update_ok = true) →
      ∀ a d, (a, d) ∈ found → d.live.is_plug = true →
      (lookupA (discover_devices initial_state
          (Except.ok found)).1.ui_elements a).map (fun e => e.power_lbl) =
        some (if ENABLE_POWER_MONITORING && starts_with d.live.model "HS110" &&
            d.live.emeter_realtime.isSome
          then PowerLabel.reading (emeter_power d.live.emeter_realtime)
          else PowerLabel.blank)) ∧
    (keysA scenario_state.plugs = ["10.0.0.2", "10.0.0.5", "10.0.0.9"] ∧
    keysA scenario_state.ui_elements = ["10.0.0.5", "10.0.0.9"] ∧
    (lookupA scenario_state.ui_elements "10.0.0.5").map (fun e => e.power_lbl) =
      some (PowerLabel.reading (23.4 : ℚ)) ∧
    (lookupA scenario_state.ui_elements "10.0.0.9").map (fun e => e.power_lbl) =
      some PowerLabel.blank ∧
    lookupA scenario_state.ui_elements "10.0.0.2" = none ∧
    strLe "10.0.0.5" "10.0.0.9" = true) := by
  have hq : (23.4 : ℚ) = mkRat 234 10 := by
    norm_num [Rat.mkRat_eq_div]
  refine ⟨widget_state_of_power_lbl, ?_, fun n addr dev => rfl, ?_, ?_⟩
  · intro el a
    rw [widget_state_of_power_lbl el a]
    by_cases hm : (ENABLE_POWER_MONITORING && starts_with a.model "HS110" &&
        a.emeter_realtime.isSome) = true
    · rw [if_pos hm]
      simp [hm]
    · rw [if_neg hm]
      simp [hm]
  · intro found hnd hok a d hmem hplug
    have hoks : ∀ p ∈ sortedF found, p.2.update_ok = true :=
      fun p hp => hok p (mem_sortedF.mp hp)
    have hnds : (keysA (sortedF found)).Nodup := keysA_sortedF_nodup hnd
    rw [discover_devices_ok_eq initial_state found rfl hok]
    show (lookupA (pass_result initial_state found).1.ui_elements a).map
      (fun e => e.power_lbl) = _
    unfold pass_result
    have hbase : marks_state (pass_start initial_state) found =
        pass_start initial_state := rfl
    rw [hbase]
    have hmem2 : (a, d) ∈ sortedF found := mem_sortedF.mpr hmem
    have hw : lookupA (pass_start initial_state).plugs a = none := rfl
    obtain ⟨_, r2⟩ := process_devices_new (sortedF found) (pass_start initial_state)
      ((offline_list (pass_start initial_state) found).map Event.offlineMark)
      hnds hoks hmem2 hw
    rw [if_pos hplug] at r2
    obtain ⟨n, hn⟩ := r2
    rw [hn]
    show some ((widget_state_of (fresh_el n a (upd_dev d))
      (upd_dev d).cached).power_lbl) = _
    rw [widget_state_of_power_lbl]
    rfl
  · refine ⟨by decide, by decide, ?_, by decide, by decide, by decide⟩
    rw [hq]
    decide

end QasaPlug
